import Mathlib

/-!
Verification development for the zoho_etl repository.

The repository consists of two Python ETL scripts:
  * `final_script.py` — syncs Invoices and CreditNotes from the Zoho Books API
    into SQL tables (plain INSERTs, no upsert);
  * `purchase_bills_etl.py` — syncs purchase Bills (MERGE upsert keyed by
    `bill_id`, delete-then-insert line items).

We shallow-embed the Python code: JSON values returned by `response.json()`
become the inductive `Json`; Python dict/attribute semantics (`d.get`, `in`,
truthiness, `or`) become explicit functions; fallible Python expressions become
`Except String` computations whose `.error` constructor stands for a raised
exception; SQL tables become Lean lists of row structures where a row list
records the committed state (statements of one Python-level transaction either
all land via the trailing `commit()` or the `.error` result leaves the
committed state unchanged).
-/

namespace ZohoETL

/-- JSON-ish Python values as produced by `response.json()`.  Numbers are
modelled as integers (no claim depends on fractional values). -/
inductive Json where
  | null
  | bool (b : Bool)
  | num (n : Int)
  | str (s : String)
  | arr (xs : List Json)
  | obj (fields : List (String × Json))
deriving Repr, Inhabited

mutual

/-- Structural equality test on `Json` (used to build `DecidableEq`). -/
def Json.beq : Json → Json → Bool
  | .null, .null => true
  | .bool a, .bool b => a == b
  | .num a, .num b => a == b
  | .str a, .str b => a == b
  | .arr xs, .arr ys => Json.beqList xs ys
  | .obj fs, .obj gs => Json.beqFields fs gs
  | _, _ => false

def Json.beqList : List Json → List Json → Bool
  | [], [] => true
  | x :: xs, y :: ys => Json.beq x y && Json.beqList xs ys
  | _, _ => false

def Json.beqFields : List (String × Json) → List (String × Json) → Bool
  | [], [] => true
  | (k, v) :: fs, (l, w) :: gs => k == l && Json.beq v w && Json.beqFields fs gs
  | _, _ => false

end

mutual

theorem Json.beq_refl : ∀ a : Json, Json.beq a a = true
  | .null => rfl
  | .bool a => by simp [Json.beq]
  | .num a => by simp [Json.beq]
  | .str a => by simp [Json.beq]
  | .arr xs => by simp [Json.beq, Json.beqList_refl xs]
  | .obj fs => by simp [Json.beq, Json.beqFields_refl fs]

theorem Json.beqList_refl : ∀ xs : List Json, Json.beqList xs xs = true
  | [] => rfl
  | x :: xs => by simp [Json.beqList, Json.beq_refl x, Json.beqList_refl xs]

theorem Json.beqFields_refl : ∀ fs : List (String × Json), Json.beqFields fs fs = true
  | [] => rfl
  | (k, v) :: fs => by simp [Json.beqFields, Json.beq_refl v, Json.beqFields_refl fs]

end

mutual

theorem Json.beq_eq : ∀ a b : Json, Json.beq a b = true → a = b
  | .null, .null, _ => rfl
  | .bool a, .bool b, h => by simpa [Json.beq] using h
  | .num a, .num b, h => by simpa [Json.beq] using h
  | .str a, .str b, h => by simpa [Json.beq] using h
  | .arr xs, .arr ys, h => by
      simp only [Json.beq] at h
      exact congrArg Json.arr (Json.beqList_eq xs ys h)
  | .obj fs, .obj gs, h => by
      simp only [Json.beq] at h
      exact congrArg Json.obj (Json.beqFields_eq fs gs h)
  | .null, .bool _, h | .null, .num _, h | .null, .str _, h | .null, .arr _, h
  | .null, .obj _, h | .bool _, .null, h | .bool _, .num _, h | .bool _, .str _, h
  | .bool _, .arr _, h | .bool _, .obj _, h | .num _, .null, h | .num _, .bool _, h
  | .num _, .str _, h | .num _, .arr _, h | .num _, .obj _, h | .str _, .null, h
  | .str _, .bool _, h | .str _, .num _, h | .str _, .arr _, h | .str _, .obj _, h
  | .arr _, .null, h | .arr _, .bool _, h | .arr _, .num _, h | .arr _, .str _, h
  | .arr _, .obj _, h | .obj _, .null, h | .obj _, .bool _, h | .obj _, .num _, h
  | .obj _, .str _, h | .obj _, .arr _, h => by simp [Json.beq] at h

theorem Json.beqList_eq : ∀ xs ys : List Json, Json.beqList xs ys = true → xs = ys
  | [], [], _ => rfl
  | x :: xs, y :: ys, h => by
      simp only [Json.beqList, Bool.and_eq_true] at h
      rw [Json.beq_eq x y h.1, Json.beqList_eq xs ys h.2]
  | [], _ :: _, h => by simp [Json.beqList] at h
  | _ :: _, [], h => by simp [Json.beqList] at h

theorem Json.beqFields_eq :
    ∀ fs gs : List (String × Json), Json.beqFields fs gs = true → fs = gs
  | [], [], _ => rfl
  | (k, v) :: fs, (l, w) :: gs, h => by
      simp only [Json.beqFields, Bool.and_eq_true] at h
      obtain ⟨⟨hk, hv⟩, hrest⟩ := h
      rw [eq_of_beq hk, Json.beq_eq v w hv, Json.beqFields_eq fs gs hrest]
  | [], _ :: _, h => by simp [Json.beqFields] at h
  | _ :: _, [], h => by simp [Json.beqFields] at h

end

instance : DecidableEq Json := fun a b =>
  if h : Json.beq a b = true then .isTrue (Json.beq_eq a b h)
  else .isFalse fun he => h (he ▸ Json.beq_refl a)

/-- Python truthiness: `None`, `False`, `0`, `""`, `[]`, `{}` are falsy. -/
def Json.truthy : Json → Bool
  | .null => false
  | .bool b => b
  | .num n => n != 0
  | .str s => !s.isEmpty
  | .arr xs => !xs.isEmpty
  | .obj fs => !fs.isEmpty

/-- Python `a or b`: `a` when truthy, else `b`. -/
def pyOr (a b : Json) : Json := if a.truthy then a else b

/-- Python `d.get(k, default)`.  On a non-dict receiver this raises
`AttributeError` (modelled as `.error`). -/
def Json.pyGet : Json → String → Json → Except String Json
  | .obj fs, k, dflt => .ok ((List.lookup k fs).getD dflt)
  | _, _, _ => .error "AttributeError"

/-- Python `d[k]` subscription on a JSON value: dict lookup (KeyError when the
key is missing); any non-dict receiver raises for a string index. -/
def Json.index : Json → String → Except String Json
  | .obj fs, k =>
      match List.lookup k fs with
      | some v => .ok v
      | none => .error "KeyError"
  | _, _ => .error "TypeError"

/-- Python `k in data` for a string `k`: key test on dicts, membership on
lists, substring test on strings, `TypeError` otherwise. -/
def pyContains (data : Json) (k : String) : Except String Bool :=
  match data with
  | .obj fs => .ok ((List.lookup k fs).isSome)
  | .arr xs => .ok (xs.contains (.str k))
  | .str s => .ok (k.isEmpty || (s.splitOn k).length > 1)
  | _ => .error "TypeError"

/-- Python `for x in v`: lists yield elements, dicts yield keys, strings yield
one-character strings; other values raise `TypeError`. -/
def Json.iter : Json → Except String (List Json)
  | .arr xs => .ok xs
  | .obj fs => .ok (fs.map fun p => .str p.1)
  | .str s => .ok (s.data.map fun c => .str (String.mk [c]))
  | _ => .error "TypeError"

/-- Python `v != 0` specialised to the comparison in the scripts: only the
number `0` and `False` compare equal to `0`. -/
def pyEqZero (j : Json) : Bool := j = Json.num 0 || j = Json.bool false

/-- Python `v + 1` for a page counter: ints add, booleans coerce to 0/1,
anything else raises `TypeError`. -/
def pyAddOne : Json → Except String Int
  | .num n => .ok (n + 1)
  | .bool b => .ok ((if b then 1 else 0) + 1)
  | _ => .error "TypeError"

mutual

/-- Python `repr` of a JSON-shaped value (dict/list reprs use single quotes
and `", "` / `": "` separators, `None` / `True` / `False` capitalised). -/
def pyRepr : Json → String
  | .null => "None"
  | .bool true => "True"
  | .bool false => "False"
  | .num n => toString n
  | .str s => "\x27" ++ s ++ "\x27"
  | .arr xs => "[" ++ pyReprList xs ++ "]"
  | .obj fs => "\x7b" ++ pyReprFields fs ++ "\x7d"

def pyReprList : List Json → String
  | [] => ""
  | [x] => pyRepr x
  | x :: y :: xs => pyRepr x ++ ", " ++ pyReprList (y :: xs)

def pyReprFields : List (String × Json) → String
  | [] => ""
  | [(k, v)] => "\x27" ++ k ++ "\x27: " ++ pyRepr v
  | (k, v) :: p :: fs => "\x27" ++ k ++ "\x27: " ++ pyRepr v ++ ", " ++ pyReprFields (p :: fs)

end

/-- Python `str(v)`: identity on strings, `repr` rendering on containers and
`None` (which is how `str(inv.get('billing_address'))` serialises a dict). -/
def pyStr : Json → String
  | .str s => s
  | j => pyRepr j

mutual

/-- `json.dumps(v, ensure_ascii=False)` with the default `", "` / `": "`
separators (string escaping is not modelled; no claim depends on it). -/
def jsonDumps : Json → String
  | .null => "null"
  | .bool true => "true"
  | .bool false => "false"
  | .num n => toString n
  | .str s => "\"" ++ s ++ "\""
  | .arr xs => "[" ++ jsonDumpsList xs ++ "]"
  | .obj fs => "\x7b" ++ jsonDumpsFields fs ++ "\x7d"

def jsonDumpsList : List Json → String
  | [] => ""
  | [x] => jsonDumps x
  | x :: y :: xs => jsonDumps x ++ ", " ++ jsonDumpsList (y :: xs)

def jsonDumpsFields : List (String × Json) → String
  | [] => ""
  | [(k, v)] => "\"" ++ k ++ "\": " ++ jsonDumps v
  | (k, v) :: p :: fs => "\"" ++ k ++ "\": " ++ jsonDumps v ++ ", " ++ jsonDumpsFields (p :: fs)

end

/-- Shorthand for `d.get(k)` field access on a dict known to be a dict. -/
def objGet (fs : List (String × Json)) (k : String) : Json :=
  (List.lookup k fs).getD .null

/-- Shorthand for `d.get(k, default)` on a dict known to be a dict. -/
def objGetD (fs : List (String × Json)) (k : String) (dflt : Json) : Json :=
  (List.lookup k fs).getD dflt

/-- SQL equality used by `WHERE bill_id = ?` / `ON target.bill_id =
source.bill_id`: comparisons against `NULL` never match. -/
def sqlEq (a b : Json) : Bool :=
  if a = Json.null ∨ b = Json.null then false else a = b

instance {ε α : Type} [DecidableEq ε] [DecidableEq α] : DecidableEq (Except ε α) := fun a b =>
  match a, b with
  | .ok x, .ok y =>
      if h : x = y then .isTrue (by rw [h]) else .isFalse (by simp [h])
  | .error x, .error y =>
      if h : x = y then .isTrue (by rw [h]) else .isFalse (by simp [h])
  | .ok _, .error _ => .isFalse (by simp)
  | .error _, .ok _ => .isFalse (by simp)

/-- A network response as seen by the scripts: final HTTP status plus the
result of `response.json()` (`.error` = body-parse failure). -/
structure HttpResponse where
  status : Nat
  body : Except String Json
deriving Repr, DecidableEq

/-- `requests.Response.raise_for_status()`: raises exactly for 4xx/5xx. -/
def raise_for_status (r : HttpResponse) : Except String Unit :=
  if 400 ≤ r.status ∧ r.status < 600 then .error "HTTPError" else .ok ()

/-- `r.raise_for_status()` followed by `r.json()` inside one `try` block. -/
def httpJson (r : HttpResponse) : Except String Json :=
  match raise_for_status r with
  | .error e => .error e
  | .ok _ => r.body

/-- Events recorded when a run touches the network or the database. -/
inductive Event where
  | listPage (page : Int)
  | fetchDetail (id : Json)
  | persistDoc (id : Json)
  | persistLineItems (id : Json)
deriving Repr, DecidableEq

def isFetchEvent : Event → Bool
  | .fetchDetail _ => true
  | _ => false

def isPersistEvent : Event → Bool
  | .persistDoc _ => true
  | .persistLineItems _ => true
  | _ => false

/-- Outcome of processing one document summary: the new state, or a raised
exception together with the committed state at the moment of the raise. -/
inductive StepRes (σ : Type) where
  | ok (st : σ)
  | err (st : σ) (msg : String)
deriving Repr

/-- The body of `for summary in ...:`: run `f` on each summary in order,
propagating the first raised exception. -/
def foldSteps {σ : Type} (f : σ → Json → StepRes σ) : σ → List Json → StepRes σ
  | st, [] => .ok st
  | st, s :: rest =>
    match f st s with
    | .ok st2 => foldSteps f st2 rest
    | .err st2 e => .err st2 e

/-- Outcome of one `while True:` page iteration. -/
inductive PageRes (σ : Type) where
  | stop (st : σ)
  | next (st : σ) (page : Int)
  | err (st : σ) (msg : String)
deriving Repr

/-- Outcome of a whole pagination loop (`fuelEmpty` is an artifact of the
fuel-based embedding, it has no Python counterpart). -/
inductive LoopRes (σ : Type) where
  | done (st : σ)
  | err (st : σ) (msg : String)
  | fuelEmpty (st : σ)
deriving Repr

/-- Run page iterations until one stops or raises, bounded by fuel. -/
def runPages {σ : Type} (pageFn : Int → σ → PageRes σ) : Nat → Int → σ → LoopRes σ
  | 0, _, st => .fuelEmpty st
  | n + 1, page, st =>
    match pageFn page st with
    | .stop st2 => .done st2
    | .err st2 e => .err st2 e
    | .next st2 p2 => runPages pageFn n p2 st2

/-- Process exit code and final committed state of one run. -/
structure RunResult (σ : Type) where
  exitCode : Nat
  st : σ
deriving Repr, DecidableEq

/-! ## final_script.py — Invoices and CreditNotes -/

namespace FinalScript

/-- `get_new_access_token` of final_script.py: the whole of `response.json()`
and `json_data.get("access_token")` sits inside one `try`, so any parse or
attribute failure is caught and yields `None` (here `Json.null`). -/
def get_new_access_token (r : HttpResponse) : Json :=
  match r.body with
  | .error _ => .null
  | .ok j =>
    match j.pyGet "access_token" .null with
    | .error _ => .null
    | .ok v => v

/-- The billing/shipping state expression of `insert_invoice` /
`insert_credit_note`: `doc.get(key, \x7b\x7d).get('state')`. -/
def addrState (doc : Json) (key : String) : Except String Json :=
  match doc.pyGet key (.obj []) with
  | .error e => .error e
  | .ok a => a.pyGet "state" .null

/-- One row of the Invoices / CreditNotes table.  `doc_id` is the
`invoice_id` (resp. `creditnote_id`) column. -/
structure DocRow where
  doc_id : Json
  customer_name : Json
  date : Json
  status : Json
  total : Json
  currency : Json
  billing_address : Json
  shipping_address : Json
  custom_fields : Json
  taxes : Json
  billing_state : Json
  shipping_state : Json
deriving Repr, DecidableEq

/-- The row of parameter values bound by `insert_invoice`; errors are the
exceptions Python would raise while evaluating the parameter tuple
(`AttributeError` when `inv` or a present-but-null address is not a dict). -/
def invRowOf (idKey : String) (inv : Json) : Except String DocRow :=
  match inv with
  | .obj fs =>
    match addrState inv "billing_address" with
    | .error e => .error e
    | .ok bs =>
      match addrState inv "shipping_address" with
      | .error e => .error e
      | .ok ss =>
        .ok { doc_id := objGet fs idKey
              customer_name := objGet fs "customer_name"
              date := objGet fs "date"
              status := objGet fs "status"
              total := objGet fs "total"
              currency := objGet fs "currency_code"
              billing_address := .str (pyStr (objGet fs "billing_address"))
              shipping_address := .str (pyStr (objGet fs "shipping_address"))
              custom_fields := .str (pyStr (objGet fs "custom_fields"))
              taxes := .str (pyStr (objGet fs "taxes"))
              billing_state := bs
              shipping_state := ss }
  | _ => .error "AttributeError"

/-- `insert_invoice`: a plain `INSERT INTO Invoices ... VALUES ...` followed
by `commit()` — the row is unconditionally appended. -/
def insert_invoice (tbl : List DocRow) (inv : Json) : Except String (List DocRow) :=
  match invRowOf "invoice_id" inv with
  | .error e => .error e
  | .ok row => .ok (tbl ++ [row])

/-- `insert_credit_note`: identical to `insert_invoice` but reading
`creditnote_id` and writing the CreditNotes table. -/
def insert_credit_note (tbl : List DocRow) (cn : Json) : Except String (List DocRow) :=
  match invRowOf "creditnote_id" cn with
  | .error e => .error e
  | .ok row => .ok (tbl ++ [row])

/-- One row of InvoiceLineItems / CreditNoteLineItems (without the IDENTITY
surrogate key). -/
structure LineItemRow where
  doc_id : Json
  item_name : Json
  description : Json
  rate : Json
  quantity : Json
  amount : Json
  item_total : Json
  item_tax : Json
deriving Repr, DecidableEq

/-- The parameter row bound for one line item. -/
def lineItemOf (doc_id : Json) (item : Json) : Except String LineItemRow :=
  match item with
  | .obj fs =>
    .ok { doc_id := doc_id
          item_name := objGet fs "name"
          description := objGet fs "description"
          rate := objGet fs "rate"
          quantity := objGet fs "quantity"
          amount := objGet fs "amount"
          item_total := objGet fs "item_total"
          item_tax := .str (pyStr (objGet fs "taxes")) }
  | _ => .error "AttributeError"

/-- `insert_line_items` of final_script.py: `if not line_items: return`
(no write at all), else insert every item and commit once at the end.  An
exception mid-loop leaves the committed table unchanged (nothing was
committed yet). -/
def insert_line_items (tbl : List LineItemRow) (invoice_id : Json) (line_items : Json) :
    Except String (List LineItemRow) :=
  if ¬ line_items.truthy then .ok tbl
  else
    match line_items.iter with
    | .error e => .error e
    | .ok items =>
      match items.mapM (lineItemOf invoice_id) with
      | .error e => .error e
      | .ok rows => .ok (tbl ++ rows)

/-- `insert_credit_note_line_items`: identical body for the
CreditNoteLineItems table. -/
def insert_credit_note_line_items (tbl : List LineItemRow) (creditnote_id : Json)
    (line_items : Json) : Except String (List LineItemRow) :=
  if ¬ line_items.truthy then .ok tbl
  else
    match line_items.iter with
    | .error e => .error e
    | .ok items =>
      match items.mapM (lineItemOf creditnote_id) with
      | .error e => .error e
      | .ok rows => .ok (tbl ++ rows)

/-- `fetch_invoice_detail`: `response.json().get("invoice")` — no
`raise_for_status`, no application-code check; only a JSON-parse failure (or
a non-dict body) raises. -/
def fetch_invoice_detail (r : HttpResponse) : Except String Json :=
  match r.body with
  | .error e => .error e
  | .ok j => j.pyGet "invoice" .null

/-- `fetch_credit_note_detail`: same, reading the `creditnote` key. -/
def fetch_credit_note_detail (r : HttpResponse) : Except String Json :=
  match r.body with
  | .error e => .error e
  | .ok j => j.pyGet "creditnote" .null

/-- Committed database state plus the event trace of one run. -/
structure FsState where
  invoices : List DocRow
  invLineItems : List LineItemRow
  creditnotes : List DocRow
  cnLineItems : List LineItemRow
  trace : List Event
deriving Repr, DecidableEq

def initFsState : FsState := ⟨[], [], [], [], []⟩

/-- The body of `for summary in invoices:` in `fetch_all_invoices`.
`detailOf` maps an invoice id to the response of the detail GET.  Inserts are
not wrapped in `try`, so their exceptions propagate (ending the run). -/
def invoice_process_summary (detailOf : Json → HttpResponse) (st : FsState) (s : Json) :
    StepRes FsState :=
  match s.pyGet "invoice_id" .null with
  | .error e => .err st e
  | .ok invoice_id =>
    let st := { st with trace := st.trace ++ [.fetchDetail invoice_id] }
    match fetch_invoice_detail (detailOf invoice_id) with
    | .error e => .err st e
    | .ok full_invoice =>
      if full_invoice.truthy then
        let st1 := { st with trace := st.trace ++ [.persistDoc invoice_id] }
        match insert_invoice st.invoices full_invoice with
        | .error e => .err st1 e
        | .ok tbl =>
          let st2 := { st1 with invoices := tbl }
          match full_invoice.pyGet "line_items" .null with
          | .error e => .err st2 e
          | .ok line_items =>
            let st3 := { st2 with trace := st2.trace ++ [.persistLineItems invoice_id] }
            match insert_line_items st2.invLineItems invoice_id line_items with
            | .error e => .err st3 e
            | .ok li => .ok { st3 with invLineItems := li }
      else .ok st

/-- The body of `for summary in creditnotes:` in `fetch_all_credit_notes`. -/
def cn_process_summary (detailOf : Json → HttpResponse) (st : FsState) (s : Json) :
    StepRes FsState :=
  match s.pyGet "creditnote_id" .null with
  | .error e => .err st e
  | .ok cn_id =>
    let st := { st with trace := st.trace ++ [.fetchDetail cn_id] }
    match fetch_credit_note_detail (detailOf cn_id) with
    | .error e => .err st e
    | .ok full_cn =>
      if full_cn.truthy then
        let st1 := { st with trace := st.trace ++ [.persistDoc cn_id] }
        match insert_credit_note st.creditnotes full_cn with
        | .error e => .err st1 e
        | .ok tbl =>
          let st2 := { st1 with creditnotes := tbl }
          match full_cn.pyGet "line_items" .null with
          | .error e => .err st2 e
          | .ok line_items =>
            let st3 := { st2 with trace := st2.trace ++ [.persistLineItems cn_id] }
            match insert_credit_note_line_items st2.cnLineItems cn_id line_items with
            | .error e => .err st3 e
            | .ok li => .ok { st3 with cnLineItems := li }
      else .ok st

/-- One `while True:` iteration of `fetch_all_invoices`: GET the page,
`if "invoices" not in data:` log and `break`; `if not invoices:` `break`;
else process every summary and `page += 1`. -/
def invoices_page (r : HttpResponse) (detailOf : Json → HttpResponse) (page : Int)
    (st : FsState) : PageRes FsState :=
  let st := { st with trace := st.trace ++ [.listPage page] }
  match r.body with
  | .error e => .err st e
  | .ok data =>
    match pyContains data "invoices" with
    | .error e => .err st e
    | .ok false => .stop st
    | .ok true =>
      match data.index "invoices" with
      | .error e => .err st e
      | .ok invoices =>
        if ¬ invoices.truthy then .stop st
        else
          match invoices.iter with
          | .error e => .err st e
          | .ok summaries =>
            match foldSteps (invoice_process_summary detailOf) st summaries with
            | .ok st2 => .next st2 (page + 1)
            | .err st2 e => .err st2 e

/-- One `while True:` iteration of `fetch_all_credit_notes`. -/
def creditnotes_page (r : HttpResponse) (detailOf : Json → HttpResponse) (page : Int)
    (st : FsState) : PageRes FsState :=
  let st := { st with trace := st.trace ++ [.listPage page] }
  match r.body with
  | .error e => .err st e
  | .ok data =>
    match pyContains data "creditnotes" with
    | .error e => .err st e
    | .ok false => .stop st
    | .ok true =>
      match data.index "creditnotes" with
      | .error e => .err st e
      | .ok creditnotes =>
        if ¬ creditnotes.truthy then .stop st
        else
          match creditnotes.iter with
          | .error e => .err st e
          | .ok summaries =>
            match foldSteps (cn_process_summary detailOf) st summaries with
            | .ok st2 => .next st2 (page + 1)
            | .err st2 e => .err st2 e

/-- `fetch_all_invoices`, from `page = 1`; `pages` maps a page number to the
list-endpoint response. -/
def fetch_all_invoices (pages : Int → HttpResponse) (detailOf : Json → HttpResponse)
    (fuel : Nat) (st : FsState) : LoopRes FsState :=
  runPages (fun p s => invoices_page (pages p) detailOf p s) fuel 1 st

/-- `fetch_all_credit_notes`, from `page = 1`. -/
def fetch_all_credit_notes (pages : Int → HttpResponse) (detailOf : Json → HttpResponse)
    (fuel : Nat) (st : FsState) : LoopRes FsState :=
  runPages (fun p s => creditnotes_page (pages p) detailOf p s) fuel 1 st

/-- `main` of final_script.py.  `if not token: return` ends the process with
exit code 0; the whole ETL body is inside `try/except Exception`, whose
handler only logs — so every path of this `main` exits with code 0.  `none`
is returned only when the fuel runs out (a non-terminating run). -/
def main (tokenResp : HttpResponse) (invPages cnPages : Int → HttpResponse)
    (invDetail cnDetail : Json → HttpResponse) (fuel : Nat) :
    Option (RunResult FsState) :=
  let token := get_new_access_token tokenResp
  if ¬ token.truthy then some ⟨0, initFsState⟩
  else
    match fetch_all_invoices invPages invDetail fuel initFsState with
    | .err st _ => some ⟨0, st⟩
    | .fuelEmpty _ => none
    | .done st =>
      match fetch_all_credit_notes cnPages cnDetail fuel st with
      | .err st2 _ => some ⟨0, st2⟩
      | .fuelEmpty _ => none
      | .done st2 => some ⟨0, st2⟩

end FinalScript

/-! ## purchase_bills_etl.py — Bills -/

namespace PurchaseBills

/-- Model of `dateutil.parser.parse`: third-party library, abstracted as
accepting any nonempty string (the calendar grammar is irrelevant to the
claims) and raising on anything else, which preserves the two behaviours the
script relies on: determinism and raising on bad input. -/
def parse_date : Json → Except String String
  | .str s => if s.isEmpty then .error "ParserError" else .ok s
  | _ => .error "TypeError"

/-- `safe_parse_date`: parse inside `try`, returning `None` on a falsy input
or any exception. -/
def safe_parse_date (v : Json) : Option String :=
  if v.truthy then
    match parse_date v with
    | .ok d => some d
    | .error _ => none
  else none

/-- A parsed-date column value (`None` ⇒ SQL NULL). -/
def dateJson : Option String → Json
  | none => .null
  | some d => .str d

/-- `get_new_access_token` of purchase_bills_etl.py: returns
`(access_token, api_domain)`, both `None` on parse failure or a missing /
falsy `access_token`.  The `j.get` calls sit outside the `try`, so on a
non-dict body the `AttributeError` propagates (`.error`). -/
def get_new_access_token (r : HttpResponse) : Except String (Json × Json) :=
  match r.body with
  | .error _ => .ok (.null, .null)
  | .ok j =>
    match j.pyGet "access_token" .null with
    | .error e => .error e
    | .ok access_token =>
      match j.pyGet "api_domain" (.str "https://www.zohoapis.in") with
      | .error e => .error e
      | .ok api_domain =>
        if ¬ access_token.truthy then .ok (.null, .null)
        else .ok (access_token, api_domain)

/-- The billing/shipping state expression of `insert_bill`:
`(bill.get(key) or \x7b\x7d).get('state')`. -/
def addrState (doc : Json) (key : String) : Except String Json :=
  match doc.pyGet key .null with
  | .error e => .error e
  | .ok a => (pyOr a (.obj [])).pyGet "state" .null

/-- One row of the Bills table (`bill_id` is the primary key). -/
structure BillRow where
  bill_id : Json
  vendor_name : Json
  date : Json
  status : Json
  total : Json
  currency : Json
  place_of_supply : Json
  billing_address : Json
  shipping_address : Json
  notes : Json
  terms : Json
  billing_state : Json
  shipping_state : Json
  created_time : Json
  last_modified_time : Json
deriving Repr, DecidableEq

/-- The parameter row bound by `insert_bill` (the MERGE binds the same
values for its UPDATE and INSERT branches). -/
def billRowOf (bill : Json) : Except String BillRow :=
  match bill with
  | .obj fs =>
    match addrState bill "billing_address" with
    | .error e => .error e
    | .ok bs =>
      match addrState bill "shipping_address" with
      | .error e => .error e
      | .ok ss =>
        .ok { bill_id := objGet fs "bill_id"
              vendor_name := objGet fs "vendor_name"
              date := dateJson (safe_parse_date (objGet fs "date"))
              status := objGet fs "status"
              total := objGet fs "total"
              currency := objGet fs "currency_code"
              place_of_supply := objGet fs "place_of_supply"
              billing_address := .str (jsonDumps (objGetD fs "billing_address" (.obj [])))
              shipping_address := .str (jsonDumps (objGetD fs "shipping_address" (.obj [])))
              notes := objGet fs "notes"
              terms := objGet fs "terms"
              billing_state := bs
              shipping_state := ss
              created_time := dateJson (safe_parse_date (objGet fs "created_time"))
              last_modified_time := dateJson (safe_parse_date (objGet fs "last_modified_time")) }
  | _ => .error "AttributeError"

/-- `insert_bill`: `MERGE Bills` on `bill_id` — update every matched row
with the new values, insert when unmatched, then commit.  The schema's
`PRIMARY KEY` forbids a NULL `bill_id` (`IntegrityError`); SQL equality
(`sqlEq`) never matches NULL. -/
def insert_bill (tbl : List BillRow) (bill : Json) : Except String (List BillRow) :=
  match billRowOf bill with
  | .error e => .error e
  | .ok row =>
    if row.bill_id = Json.null then .error "IntegrityError"
    else if tbl.any (fun r => sqlEq r.bill_id row.bill_id) then
      .ok (tbl.map fun r => if sqlEq r.bill_id row.bill_id then row else r)
    else .ok (tbl ++ [row])

/-- One row of BillLineItems (without the IDENTITY surrogate key). -/
structure BillLineItemRow where
  bill_id : Json
  item_name : Json
  description : Json
  rate : Json
  quantity : Json
  amount : Json
  item_total : Json
  tax_name : Json
  tax_percentage : Json
  account_id : Json
  account_name : Json
deriving Repr, DecidableEq

/-- The non-tax columns of one bill line item. -/
def mkBillItem (fs : List (String × Json)) (bill_id tax_name tax_percentage : Json) :
    BillLineItemRow :=
  { bill_id := bill_id
    item_name := objGet fs "name"
    description := objGet fs "description"
    rate := objGet fs "rate"
    quantity := objGet fs "quantity"
    amount := objGet fs "amount"
    item_total := objGet fs "item_total"
    tax_name := tax_name
    tax_percentage := tax_percentage
    account_id := objGet fs "account_id"
    account_name := objGet fs "account_name" }

/-- The parameter row for one bill line item: `taxes[0]` supplies
`tax_name` / `tax_percentage` when `item.get('taxes')` is a nonempty list,
else both stay `None`. -/
def billLineItemOf (bill_id : Json) (item : Json) : Except String BillLineItemRow :=
  match item with
  | .obj fs =>
    match objGet fs "taxes" with
    | .arr (t0 :: _) =>
      match t0.pyGet "name" .null with
      | .error e => .error e
      | .ok tn =>
        match t0.pyGet "percentage" .null with
        | .error e => .error e
        | .ok tp => .ok (mkBillItem fs bill_id tn tp)
    | _ => .ok (mkBillItem fs bill_id .null .null)
  | _ => .error "AttributeError"

/-- `insert_line_items` of purchase_bills_etl.py: first
`DELETE FROM BillLineItems WHERE bill_id = ?`; `if not line_items:` commit
the delete and return; else insert every item and commit once.  A raised
exception leaves the committed table unchanged (nothing committed yet). -/
def insert_line_items (tbl : List BillLineItemRow) (bill_id : Json) (line_items : Json) :
    Except String (List BillLineItemRow) :=
  let deleted := tbl.filter fun li => ¬ sqlEq li.bill_id bill_id
  if ¬ line_items.truthy then .ok deleted
  else
    match line_items.iter with
    | .error e => .error e
    | .ok items =>
      match items.mapM (billLineItemOf bill_id) with
      | .error e => .error e
      | .ok rows => .ok (deleted ++ rows)

/-- `fetch_bill_detail`: `raise_for_status()` and `r.json()` inside `try`
(exceptions logged, `return None`); then `if j.get("code", 0) != 0: return
None`; else return `j.get("bill")`.  The `j.get` calls are outside the
`try`, so a non-dict JSON body raises (`.error`). -/
def fetch_bill_detail (r : HttpResponse) : Except String (Option Json) :=
  match httpJson r with
  | .error _ => .ok none
  | .ok j =>
    match j.pyGet "code" (.num 0) with
    | .error e => .error e
    | .ok code =>
      if ¬ pyEqZero code then .ok none
      else
        match j.pyGet "bill" .null with
        | .error e => .error e
        | .ok b => .ok (some b)

/-- Committed database state, event trace and `total_inserted` counter. -/
structure BillsState where
  bills : List BillRow
  billLineItems : List BillLineItemRow
  trace : List Event
  totalInserted : Nat
deriving Repr, DecidableEq

def initBillsState : BillsState := ⟨[], [], [], 0⟩

/-- The body of `for summary in bills:` in `fetch_all_bills`.  Both inserts
sit inside `try/except` which only logs, so a persistence failure skips the
document (the committed tables are unchanged — nothing was committed before
the raise). -/
def bill_process_summary (detailOf : Json → HttpResponse) (st : BillsState) (s : Json) :
    StepRes BillsState :=
  match s.pyGet "bill_id" .null with
  | .error e => .err st e
  | .ok bill_id =>
    let st := { st with trace := st.trace ++ [.fetchDetail bill_id] }
    match fetch_bill_detail (detailOf bill_id) with
    | .error e => .err st e
    | .ok none => .ok st
    | .ok (some full_bill) =>
      if full_bill.truthy then
        let st1 := { st with trace := st.trace ++ [.persistDoc bill_id] }
        match insert_bill st.bills full_bill with
        | .error _ => .ok st1
        | .ok tb =>
          let st2 := { st1 with bills := tb }
          match full_bill.pyGet "line_items" .null with
          | .error _ => .ok st2
          | .ok li0 =>
            let st3 := { st2 with trace := st2.trace ++ [.persistLineItems bill_id] }
            match insert_line_items st2.billLineItems bill_id (pyOr li0 (.arr [])) with
            | .error _ => .ok st3
            | .ok tl =>
              .ok { st3 with billLineItems := tl, totalInserted := st3.totalInserted + 1 }
      else .ok st

/-- The page-advance tail of one `fetch_all_bills` iteration:
`page_ctx = data.get("page_context") or \x7b\x7d`,
`has_more = page_ctx.get("has_more_page")`; when `has_more` is truthy the
next page is `(page_ctx.get("page") or params["page"]) + 1` (`some`), else
the loop breaks (`none`). -/
def next_page (data : Json) (page : Int) : Except String (Option Int) :=
  match data.pyGet "page_context" .null with
  | .error e => .error e
  | .ok pc =>
    match (pyOr pc (.obj [])).pyGet "has_more_page" .null with
    | .error e => .error e
    | .ok has_more =>
      if has_more.truthy then
        match (pyOr pc (.obj [])).pyGet "page" .null with
        | .error e => .error e
        | .ok sp =>
          match pyAddOne (pyOr sp (.num page)) with
          | .error e => .error e
          | .ok p2 => .ok (some p2)
      else .ok none

/-- One `while True:` iteration of `fetch_all_bills`: GET with
`raise_for_status` (HTTP/parse errors are logged then re-`raise`d); a
non-zero `data.get("code", 0)` raises `RuntimeError`; `bills =
data.get("bills", [])`, `if not bills: break`; else process the summaries
and advance the page via `next_page`. -/
def bills_page (r : HttpResponse) (detailOf : Json → HttpResponse) (page : Int)
    (st : BillsState) : PageRes BillsState :=
  let st := { st with trace := st.trace ++ [.listPage page] }
  match httpJson r with
  | .error e => .err st e
  | .ok data =>
    match data.pyGet "code" (.num 0) with
    | .error e => .err st e
    | .ok code =>
      if ¬ pyEqZero code then .err st "RuntimeError"
      else
        match data.pyGet "bills" (.arr []) with
        | .error e => .err st e
        | .ok bills =>
          if ¬ bills.truthy then .stop st
          else
            match bills.iter with
            | .error e => .err st e
            | .ok summaries =>
              match foldSteps (bill_process_summary detailOf) st summaries with
              | .err st2 e => .err st2 e
              | .ok st2 =>
                match next_page data page with
                | .error e => .err st2 e
                | .ok none => .stop st2
                | .ok (some p2) => .next st2 p2

/-- `fetch_all_bills`, from `params["page"] = 1`. -/
def fetch_all_bills (pages : Int → HttpResponse) (detailOf : Json → HttpResponse)
    (fuel : Nat) (st : BillsState) : LoopRes BillsState :=
  runPages (fun p s => bills_page (pages p) detailOf p s) fuel 1 st

/-- `main` of purchase_bills_etl.py.  `cfg` stands for the list
`[SQL_SERVER, SQL_DATABASE, SQL_USERNAME, SQL_PASSWORD, ZOHO_REFRESH_TOKEN,
ZOHO_CLIENT_ID, ZOHO_CLIENT_SECRET, ZOHO_REDIRECT_URI, ZOHO_ORG_ID]` tested
by `if not all([...]): sys.exit(2)`.  A missing/falsy token or api_domain
exits 2; an exception in the ETL body is logged and `sys.exit(1)`;
`get_new_access_token` is called outside any `try`, so an exception there
crashes the interpreter (exit code 1). -/
def main (cfg : List Json) (tokenResp : HttpResponse) (pages : Int → HttpResponse)
    (detailOf : Json → HttpResponse) (fuel : Nat) : Option (RunResult BillsState) :=
  if ¬ cfg.all Json.truthy then some ⟨2, initBillsState⟩
  else
    match get_new_access_token tokenResp with
    | .error _ => some ⟨1, initBillsState⟩
    | .ok (access_token, api_domain) =>
      if ¬ access_token.truthy ∨ ¬ api_domain.truthy then some ⟨2, initBillsState⟩
      else
        match fetch_all_bills pages detailOf fuel initBillsState with
        | .err st _ => some ⟨1, st⟩
        | .fuelEmpty _ => none
        | .done st => some ⟨0, st⟩

end PurchaseBills

/-! ## Claim theorems -/

/-- C5: for every document record, extracting the billing/shipping state is
defensive: if the address key is absent, or present as an object lacking a
`state` key, the state column value is `None` (not an error, not an empty
string) and the extraction never raises — in the invoices/credit-notes
writer (`doc.get(key, \x7b\x7d).get('state')`) and in the bills writer
(`(doc.get(key) or \x7b\x7d).get('state')`) alike. -/
theorem C5_defensive_state_extraction (fs : List (String × Json)) (key : String)
    (h : List.lookup key fs = none ∨
         ∃ afs, List.lookup key fs = some (.obj afs) ∧ List.lookup "state" afs = none) :
    FinalScript.addrState (.obj fs) key = .ok .null ∧
    PurchaseBills.addrState (.obj fs) key = .ok .null := by
  rcases h with h | ⟨afs, hk, hs⟩
  · constructor
    · simp [FinalScript.addrState, Json.pyGet, h]
    · simp [PurchaseBills.addrState, Json.pyGet, h, pyOr, Json.truthy]
  · constructor
    · simp [FinalScript.addrState, Json.pyGet, hk, hs]
    · cases afs with
      | nil => simp [PurchaseBills.addrState, Json.pyGet, hk, pyOr, Json.truthy]
      | cons p rest =>
        simp [PurchaseBills.addrState, Json.pyGet, hk, hs, pyOr, Json.truthy]

theorem C5_witness :
    (FinalScript.addrState (.obj [("total", .num 7)]) "billing_address" = .ok .null ∧
      PurchaseBills.addrState (.obj [("total", .num 7)]) "billing_address" = .ok .null) ∧
    (FinalScript.addrState (.obj [("shipping_address", .obj [("city", .str "X")])])
        "shipping_address" = .ok .null ∧
      PurchaseBills.addrState (.obj [("shipping_address", .obj [("city", .str "X")])])
        "shipping_address" = .ok .null) :=
  ⟨C5_defensive_state_extraction _ _ (Or.inl (by rfl)),
   C5_defensive_state_extraction _ _ (Or.inr ⟨[("city", .str "X")], by rfl, by rfl⟩)⟩

/-- C8: a line-item list that is empty (`[]`) or absent (`None`) triggers no
insert; the bills writer still executes the `DELETE` of previously stored
line items for the parent id and commits it, while the invoices and
credit-notes writers return with the line-item table untouched. -/
theorem C8_empty_line_items_no_insert (tbl : List PurchaseBills.BillLineItemRow)
    (tbl2 tbl3 : List FinalScript.LineItemRow) (bill_id doc_id cn_id items : Json)
    (h : items = .null ∨ items = .arr []) :
    PurchaseBills.insert_line_items tbl bill_id items =
      .ok (tbl.filter fun li => ¬ sqlEq li.bill_id bill_id) ∧
    FinalScript.insert_line_items tbl2 doc_id items = .ok tbl2 ∧
    FinalScript.insert_credit_note_line_items tbl3 cn_id items = .ok tbl3 := by
  rcases h with rfl | rfl <;>
    simp [PurchaseBills.insert_line_items, FinalScript.insert_line_items,
      FinalScript.insert_credit_note_line_items, Json.truthy]

theorem C8_witness :
    PurchaseBills.insert_line_items
        [{ bill_id := .str "B1", item_name := .null, description := .null, rate := .null,
           quantity := .null, amount := .null, item_total := .null, tax_name := .null,
           tax_percentage := .null, account_id := .null, account_name := .null }]
        (.str "B1") .null = .ok [] ∧
    FinalScript.insert_line_items [] (.str "I1") .null = .ok [] ∧
    FinalScript.insert_credit_note_line_items [] (.str "C1") .null = .ok [] :=
  C8_empty_line_items_no_insert _ _ _ _ _ _ _ (Or.inl rfl)

/-- The four address-derived columns of a bill parameter row. -/
def billAddrCols (row : PurchaseBills.BillRow) : Json × Json × Json × Json :=
  (row.billing_address, row.shipping_address, row.billing_state, row.shipping_state)

/-- The four address-derived columns of an invoice/credit-note parameter row. -/
def docAddrCols (row : FinalScript.DocRow) : Json × Json × Json × Json :=
  (row.billing_address, row.shipping_address, row.billing_state, row.shipping_state)

/-- C10: for a document whose billing and shipping address keys are absent,
the serialized address blob columns are not NULL: the bills writer stores
`json.dumps(\x7b\x7d)` = `"\x7b\x7d"`, the invoices/credit-notes writers
store `str(None)` = `"None"`, while the corresponding state columns are
NULL. -/
theorem C10_absent_address_blob (fs : List (String × Json))
    (hb : List.lookup "billing_address" fs = none)
    (hs : List.lookup "shipping_address" fs = none) :
    (PurchaseBills.billRowOf (.obj fs)).map billAddrCols =
      .ok (.str "\x7b\x7d", .str "\x7b\x7d", .null, .null) ∧
    (FinalScript.invRowOf "invoice_id" (.obj fs)).map docAddrCols =
      .ok (.str "None", .str "None", .null, .null) ∧
    (FinalScript.invRowOf "creditnote_id" (.obj fs)).map docAddrCols =
      .ok (.str "None", .str "None", .null, .null) := by
  have hfs : FinalScript.addrState (.obj fs) "billing_address" = .ok .null := by
    simp [FinalScript.addrState, Json.pyGet, hb]
  have hps : PurchaseBills.addrState (.obj fs) "billing_address" = .ok .null := by
    simp [PurchaseBills.addrState, Json.pyGet, hb, pyOr, Json.truthy]
  have hfs2 : FinalScript.addrState (.obj fs) "shipping_address" = .ok .null := by
    simp [FinalScript.addrState, Json.pyGet, hs]
  have hps2 : PurchaseBills.addrState (.obj fs) "shipping_address" = .ok .null := by
    simp [PurchaseBills.addrState, Json.pyGet, hs, pyOr, Json.truthy]
  refine ⟨?_, ?_, ?_⟩ <;>
    simp [PurchaseBills.billRowOf, FinalScript.invRowOf, hfs, hps, hfs2, hps2,
      objGet, objGetD, hb, hs, jsonDumps, jsonDumpsFields, pyStr, pyRepr,
      billAddrCols, docAddrCols, Except.map]

theorem C10_witness :
    (PurchaseBills.billRowOf (.obj [("bill_id", .str "B1")])).map billAddrCols =
      .ok (.str "\x7b\x7d", .str "\x7b\x7d", .null, .null) ∧
    (FinalScript.invRowOf "invoice_id" (.obj [("bill_id", .str "B1")])).map docAddrCols =
      .ok (.str "None", .str "None", .null, .null) ∧
    (FinalScript.invRowOf "creditnote_id" (.obj [("bill_id", .str "B1")])).map docAddrCols =
      .ok (.str "None", .str "None", .null, .null) :=
  C10_absent_address_blob [("bill_id", .str "B1")] (by rfl) (by rfl)

/-- Number of Bills rows carrying a given `bill_id` value. -/
def countBillId (tbl : List PurchaseBills.BillRow) (idv : Json) : Nat :=
  tbl.countP fun r => decide (r.bill_id = idv)

/-- Number of Invoices/CreditNotes rows carrying a given id value. -/
def countDocId (tbl : List FinalScript.DocRow) (idv : Json) : Nat :=
  tbl.countP fun r => decide (r.doc_id = idv)

theorem sqlEq_self (a : Json) (h : a ≠ Json.null) : sqlEq a a = true := by
  simp [sqlEq, h]

theorem sqlEq_iff_eq (a b : Json) (hb : b ≠ Json.null) : sqlEq a b = decide (a = b) := by
  by_cases ha : a = Json.null
  · subst ha
    have hnb : ¬ (Json.null = b) := fun h => hb h.symm
    simp [sqlEq, hnb]
  · simp [sqlEq, ha, hb]

theorem countP_map_eq {α : Type} (l : List α) (f : α → α) (q : α → Bool)
    (h : ∀ a, q (f a) = q a) : (l.map f).countP q = l.countP q := by
  induction l with
  | nil => simp
  | cons a t ih => simp [List.countP_cons, h, ih]

/-- After a successful `insert_bill`, repeating it with the same document is
the identity on the committed Bills table. -/
theorem insert_bill_idem (tb tb1 : List PurchaseBills.BillRow) (bill : Json)
    (h1 : PurchaseBills.insert_bill tb bill = .ok tb1) :
    PurchaseBills.insert_bill tb1 bill = .ok tb1 := by
  cases hb : PurchaseBills.billRowOf bill with
  | error e => simp [PurchaseBills.insert_bill, hb] at h1
  | ok row =>
    by_cases hnull : row.bill_id = Json.null
    · simp [PurchaseBills.insert_bill, hb, hnull] at h1
    · simp only [PurchaseBills.insert_bill, hb, if_neg hnull] at h1 ⊢
      have hfrow : (if sqlEq row.bill_id row.bill_id then row else row) = row := by
        by_cases h : sqlEq row.bill_id row.bill_id = true <;> simp [h]
      by_cases hany : (tb.any fun r => sqlEq r.bill_id row.bill_id) = true
      · rw [if_pos hany] at h1
        simp only [Except.ok.injEq] at h1
        subst h1
        obtain ⟨r, hr, hpr⟩ := List.any_eq_true.mp hany
        have hfr : (if sqlEq r.bill_id row.bill_id then row else r) = row := if_pos hpr
        have hmem : row ∈ tb.map fun r => if sqlEq r.bill_id row.bill_id then row else r :=
          List.mem_map.mpr ⟨r, hr, hfr⟩
        have hany2 : ((tb.map fun r => if sqlEq r.bill_id row.bill_id then row else r).any
            fun r => sqlEq r.bill_id row.bill_id) = true :=
          List.any_eq_true.mpr ⟨row, hmem, sqlEq_self _ hnull⟩
        rw [if_pos hany2, List.map_map]
        have hff : ((fun r => if sqlEq r.bill_id row.bill_id then row else r) ∘
            fun r => if sqlEq r.bill_id row.bill_id then row else r) =
            fun r => if sqlEq r.bill_id row.bill_id then row else r := by
          funext r
          by_cases h : sqlEq r.bill_id row.bill_id = true
          · simp only [Function.comp_apply, if_pos h, hfrow]
          · simp only [Function.comp_apply, if_neg h]
        rw [hff]
      · rw [if_neg hany] at h1
        simp only [Except.ok.injEq] at h1
        subst h1
        have hprow : sqlEq row.bill_id row.bill_id = true := sqlEq_self _ hnull
        have hany2 : ((tb ++ [row]).any fun r => sqlEq r.bill_id row.bill_id) = true := by
          rw [List.any_append]
          simp [hprow]
        rw [if_pos hany2, List.map_append]
        have hmapid : (tb.map fun r => if sqlEq r.bill_id row.bill_id then row else r) = tb := by
          have hall : ∀ r ∈ tb, (if sqlEq r.bill_id row.bill_id then row else r) = r := by
            intro r hr
            exact if_neg fun hc => hany (List.any_eq_true.mpr ⟨r, hr, hc⟩)
          calc (tb.map fun r => if sqlEq r.bill_id row.bill_id then row else r)
              = tb.map id := List.map_congr_left hall
            _ = tb := List.map_id tb
        rw [hmapid]
        simp [hfrow]

/-- The Bills row count for the written id is exactly 1 afterwards, under
the primary-key invariant (at most one matching row before). -/
theorem insert_bill_count (tb tb1 : List PurchaseBills.BillRow) (bill : Json)
    (row : PurchaseBills.BillRow) (h1 : PurchaseBills.insert_bill tb bill = .ok tb1)
    (hb : PurchaseBills.billRowOf bill = .ok row)
    (hpk : countBillId tb row.bill_id ≤ 1) : countBillId tb1 row.bill_id = 1 := by
  by_cases hnull : row.bill_id = Json.null
  · simp [PurchaseBills.insert_bill, hb, hnull] at h1
  · simp only [PurchaseBills.insert_bill, hb, if_neg hnull] at h1
    have hpq : ∀ r : PurchaseBills.BillRow,
        sqlEq r.bill_id row.bill_id = decide (r.bill_id = row.bill_id) :=
      fun r => sqlEq_iff_eq _ _ hnull
    by_cases hany : (tb.any fun r => sqlEq r.bill_id row.bill_id) = true
    · rw [if_pos hany] at h1
      simp only [Except.ok.injEq] at h1
      subst h1
      have hqf : ∀ r : PurchaseBills.BillRow,
          decide ((if sqlEq r.bill_id row.bill_id then row else r).bill_id = row.bill_id) =
          decide (r.bill_id = row.bill_id) := by
        intro r
        by_cases h : sqlEq r.bill_id row.bill_id = true
        · rw [if_pos h]
          have : r.bill_id = row.bill_id := by
            have := (hpq r) ▸ h
            exact of_decide_eq_true this
          simp [this]
        · rw [if_neg h]
      have hcnt : countBillId
          (tb.map fun r => if sqlEq r.bill_id row.bill_id then row else r) row.bill_id =
          countBillId tb row.bill_id := by
        unfold countBillId
        exact countP_map_eq tb _ _ hqf
      rw [hcnt]
      obtain ⟨r, hr, hpr⟩ := List.any_eq_true.mp hany
      have hpos : 0 < countBillId tb row.bill_id := by
        unfold countBillId
        exact List.countP_pos_iff.mpr ⟨r, hr, (hpq r) ▸ hpr⟩
      omega
    · rw [if_neg hany] at h1
      simp only [Except.ok.injEq] at h1
      subst h1
      have hzero : countBillId tb row.bill_id = 0 := by
        unfold countBillId
        rw [List.countP_eq_zero]
        intro r hr hq
        exact hany (List.any_eq_true.mpr ⟨r, hr, (hpq r) ▸ hq⟩)
      unfold countBillId at hzero ⊢
      rw [List.countP_append, hzero]
      simp

/-- Appending via `insert_invoice` / `insert_credit_note` adds exactly one
row with the document id of the parameter row. -/
theorem insert_append_count (t t1 : List FinalScript.DocRow) (idKey : String) (doc : Json)
    (r : FinalScript.DocRow) (hr : FinalScript.invRowOf idKey doc = .ok r)
    (h1 : (match FinalScript.invRowOf idKey doc with
           | .error e => .error e
           | .ok row => .ok (t ++ [row])) = Except.ok t1) :
    countDocId t1 r.doc_id = countDocId t r.doc_id + 1 := by
  rw [hr] at h1
  simp only [Except.ok.injEq] at h1
  subst h1
  unfold countDocId
  rw [List.countP_append]
  simp

/-- C1: replaying the persistence step twice with the identical document is
idempotent for Bills (the second `insert_bill` leaves the committed table of
the first run unchanged, and exactly one row carries the bill id under the
primary-key invariant), whereas running `insert_invoice`
(resp. `insert_credit_note`) twice on a table without that id produces two
rows with that id. -/
theorem C1_replay_idempotence
    (tb tb1 : List PurchaseBills.BillRow) (bill : Json)
    (h1 : PurchaseBills.insert_bill tb bill = .ok tb1)
    (hpk : ∀ row, PurchaseBills.billRowOf bill = .ok row → countBillId tb row.bill_id ≤ 1)
    (ti ti1 ti2 : List FinalScript.DocRow) (inv : Json)
    (hi0 : ∀ r, FinalScript.invRowOf "invoice_id" inv = .ok r → countDocId ti r.doc_id = 0)
    (hi1 : FinalScript.insert_invoice ti inv = .ok ti1)
    (hi2 : FinalScript.insert_invoice ti1 inv = .ok ti2)
    (tc tc1 tc2 : List FinalScript.DocRow) (cn : Json)
    (hc0 : ∀ r, FinalScript.invRowOf "creditnote_id" cn = .ok r → countDocId tc r.doc_id = 0)
    (hc1 : FinalScript.insert_credit_note tc cn = .ok tc1)
    (hc2 : FinalScript.insert_credit_note tc1 cn = .ok tc2) :
    PurchaseBills.insert_bill tb1 bill = .ok tb1 ∧
    (∀ row, PurchaseBills.billRowOf bill = .ok row → countBillId tb1 row.bill_id = 1) ∧
    (∀ r, FinalScript.invRowOf "invoice_id" inv = .ok r → countDocId ti2 r.doc_id = 2) ∧
    (∀ r, FinalScript.invRowOf "creditnote_id" cn = .ok r → countDocId tc2 r.doc_id = 2) := by
  refine ⟨insert_bill_idem tb tb1 bill h1, ?_, ?_, ?_⟩
  · intro row hb
    exact insert_bill_count tb tb1 bill row h1 hb (hpk row hb)
  · intro r hr
    have e1 := insert_append_count ti ti1 "invoice_id" inv r hr
      (by simpa [FinalScript.insert_invoice] using hi1)
    have e2 := insert_append_count ti1 ti2 "invoice_id" inv r hr
      (by simpa [FinalScript.insert_invoice] using hi2)
    rw [e2, e1, hi0 r hr]
  · intro r hr
    have e1 := insert_append_count tc tc1 "creditnote_id" cn r hr
      (by simpa [FinalScript.insert_credit_note] using hc1)
    have e2 := insert_append_count tc1 tc2 "creditnote_id" cn r hr
      (by simpa [FinalScript.insert_credit_note] using hc2)
    rw [e2, e1, hc0 r hr]

/-- Concrete sample bill document for evaluating the replay property. -/
def c1Bill : Json := .obj [("bill_id", .str "B1")]

def c1BillRow : PurchaseBills.BillRow :=
  ⟨.str "B1", .null, .null, .null, .null, .null, .null, .str "\x7b\x7d", .str "\x7b\x7d",
   .null, .null, .null, .null, .null, .null⟩

def c1Inv : Json := .obj [("invoice_id", .str "I1")]

def c1InvRow : FinalScript.DocRow :=
  ⟨.str "I1", .null, .null, .null, .null, .null, .str "None", .str "None", .str "None",
   .str "None", .null, .null⟩

def c1Cn : Json := .obj [("creditnote_id", .str "C1")]

def c1CnRow : FinalScript.DocRow :=
  ⟨.str "C1", .null, .null, .null, .null, .null, .str "None", .str "None", .str "None",
   .str "None", .null, .null⟩

theorem C1_witness :
    PurchaseBills.insert_bill [c1BillRow] c1Bill = .ok [c1BillRow] ∧
    countBillId [c1BillRow] (.str "B1") = 1 ∧
    countDocId [c1InvRow, c1InvRow] (.str "I1") = 2 ∧
    countDocId [c1CnRow, c1CnRow] (.str "C1") = 2 := by
  have main := C1_replay_idempotence [] [c1BillRow] c1Bill (by rfl)
    (fun row _ => Nat.zero_le 1)
    [] [c1InvRow] [c1InvRow, c1InvRow] c1Inv (fun r _ => rfl) (by rfl) (by rfl)
    [] [c1CnRow] [c1CnRow, c1CnRow] c1Cn (fun r _ => rfl) (by rfl) (by rfl)
  exact ⟨main.1, main.2.1 c1BillRow (by rfl), main.2.2.1 c1InvRow (by rfl),
    main.2.2.2 c1CnRow (by rfl)⟩

/-- C2 counterexample: the claim says the bills lister raises for EVERY
list response whose body lacks the `bills` key.  It does not: for the 200
response with body `\x7b\x7d` (no `bills` key, no `code` key), `fetch_all_bills`
takes `data.get("bills", [])` = `[]` and breaks gracefully — the page
iteration stops with no error and nothing persisted. -/
theorem C2_counterexample :
    PurchaseBills.bills_page ⟨200, .ok (.obj [])⟩ (fun _ => ⟨200, .ok .null⟩) 1
      PurchaseBills.initBillsState =
    .stop ⟨[], [], [Event.listPage 1], 0⟩ := by rfl

/-- C2 (amended): on a list response whose body lacks the collection key,
the invoices/credit-notes listers log and stop without raising; the bills
lister raises only when the body carries a non-zero application `code` or
when the HTTP request / JSON parse fails (in which cases nothing from that
page is persisted), while a parsed 2xx body lacking `bills` with a zero or
absent `code` stops the iteration gracefully without raising. -/
theorem C2_amended_list_shape_handling
    (r1 : HttpResponse) (d1 : Json → HttpResponse) (p1 : Int) (st1 : FinalScript.FsState)
    (data1 : Json) (hb1 : r1.body = .ok data1) (hk1 : pyContains data1 "invoices" = .ok false)
    (r2 : HttpResponse) (d2 : Json → HttpResponse) (p2 : Int) (st2 : FinalScript.FsState)
    (data2 : Json) (hb2 : r2.body = .ok data2) (hk2 : pyContains data2 "creditnotes" = .ok false)
    (r3 : HttpResponse) (d3 : Json → HttpResponse) (p3 : Int) (st3 : PurchaseBills.BillsState)
    (fs3 : List (String × Json)) (hj3 : httpJson r3 = .ok (.obj fs3))
    (hk3 : List.lookup "bills" fs3 = none)
    (hc3 : List.lookup "code" fs3 = none ∨
           ∃ c, List.lookup "code" fs3 = some c ∧ pyEqZero c = true)
    (r4 : HttpResponse) (d4 : Json → HttpResponse) (p4 : Int) (st4 : PurchaseBills.BillsState)
    (fs4 : List (String × Json)) (hj4 : httpJson r4 = .ok (.obj fs4))
    (c4 : Json) (hc4 : List.lookup "code" fs4 = some c4) (hnz4 : pyEqZero c4 = false)
    (r5 : HttpResponse) (d5 : Json → HttpResponse) (p5 : Int) (st5 : PurchaseBills.BillsState)
    (e5 : String) (hj5 : httpJson r5 = .error e5) :
    FinalScript.invoices_page r1 d1 p1 st1 =
      .stop { st1 with trace := st1.trace ++ [.listPage p1] } ∧
    FinalScript.creditnotes_page r2 d2 p2 st2 =
      .stop { st2 with trace := st2.trace ++ [.listPage p2] } ∧
    PurchaseBills.bills_page r3 d3 p3 st3 =
      .stop { st3 with trace := st3.trace ++ [.listPage p3] } ∧
    PurchaseBills.bills_page r4 d4 p4 st4 =
      .err { st4 with trace := st4.trace ++ [.listPage p4] } "RuntimeError" ∧
    PurchaseBills.bills_page r5 d5 p5 st5 =
      .err { st5 with trace := st5.trace ++ [.listPage p5] } e5 := by
  refine ⟨?_, ?_, ?_, ?_, ?_⟩
  · simp only [FinalScript.invoices_page, hb1, hk1]
  · simp only [FinalScript.creditnotes_page, hb2, hk2]
  · rcases hc3 with hc3 | ⟨c, hc, hz⟩
    · simp [PurchaseBills.bills_page, hj3, Json.pyGet, hc3, hk3, pyEqZero, Json.truthy]
    · simp [PurchaseBills.bills_page, hj3, Json.pyGet, hc, hz, hk3, Json.truthy]
  · simp [PurchaseBills.bills_page, hj4, Json.pyGet, hc4, hnz4]
  · simp only [PurchaseBills.bills_page, hj5]

theorem C2_amended_witness :
    FinalScript.invoices_page ⟨200, .ok (.obj [("message", .str "err")])⟩
        (fun _ => ⟨200, .ok .null⟩) 1 FinalScript.initFsState =
      .stop ⟨[], [], [], [], [Event.listPage 1]⟩ ∧
    FinalScript.creditnotes_page ⟨200, .ok (.obj [("message", .str "err")])⟩
        (fun _ => ⟨200, .ok .null⟩) 1 FinalScript.initFsState =
      .stop ⟨[], [], [], [], [Event.listPage 1]⟩ ∧
    PurchaseBills.bills_page ⟨200, .ok (.obj [("code", .num 0)])⟩
        (fun _ => ⟨200, .ok .null⟩) 1 PurchaseBills.initBillsState =
      .stop ⟨[], [], [Event.listPage 1], 0⟩ ∧
    PurchaseBills.bills_page ⟨200, .ok (.obj [("code", .num 6041)])⟩
        (fun _ => ⟨200, .ok .null⟩) 1 PurchaseBills.initBillsState =
      .err ⟨[], [], [Event.listPage 1], 0⟩ "RuntimeError" ∧
    PurchaseBills.bills_page ⟨500, .ok (.obj [("bills", .arr [])])⟩
        (fun _ => ⟨200, .ok .null⟩) 1 PurchaseBills.initBillsState =
      .err ⟨[], [], [Event.listPage 1], 0⟩ "HTTPError" :=
  C2_amended_list_shape_handling
    ⟨200, .ok (.obj [("message", .str "err")])⟩ (fun _ => ⟨200, .ok .null⟩) 1
      FinalScript.initFsState (.obj [("message", .str "err")]) rfl rfl
    ⟨200, .ok (.obj [("message", .str "err")])⟩ (fun _ => ⟨200, .ok .null⟩) 1
      FinalScript.initFsState (.obj [("message", .str "err")]) rfl rfl
    ⟨200, .ok (.obj [("code", .num 0)])⟩ (fun _ => ⟨200, .ok .null⟩) 1
      PurchaseBills.initBillsState [("code", .num 0)] rfl rfl (Or.inr ⟨.num 0, rfl, rfl⟩)
    ⟨200, .ok (.obj [("code", .num 6041)])⟩ (fun _ => ⟨200, .ok .null⟩) 1
      PurchaseBills.initBillsState [("code", .num 6041)] rfl (.num 6041) rfl rfl
    ⟨500, .ok (.obj [("bills", .arr [])])⟩ (fun _ => ⟨200, .ok .null⟩) 1
      PurchaseBills.initBillsState "HTTPError" rfl

/-- C3 counterexample: the claim says a run-level uncaught error in either
variant causes a non-zero process exit.  In final_script.py the ETL body's
exception is caught by `except Exception`, merely logged, and `main`
returns — the process exits 0.  Concretely: a valid token and a page-1
JSON-parse failure end the run with exit code 0 (and the page-1 list
request in the trace). -/
theorem C3_counterexample :
    FinalScript.main ⟨200, .ok (.obj [("access_token", .str "t")])⟩
      (fun _ => ⟨200, .error "JSONDecodeError"⟩) (fun _ => ⟨200, .ok .null⟩)
      (fun _ => ⟨200, .ok .null⟩) (fun _ => ⟨200, .ok .null⟩) 5 =
    some ⟨0, ⟨[], [], [], [], [Event.listPage 1]⟩⟩ := by rfl

/-- C3 (amended): the bills variant exits 0 on full success, 2 on missing
configuration or auth failure, and 1 on a run-level ETL failure, keeping the
committed state reached at the failure (no rollback); the invoices/
credit-notes variant catches the run-level error, logs it, and the process
exits 0 — also keeping the committed state (no rollback). -/
theorem C3_amended_exit_codes (cfg : List Json) (tokenResp : HttpResponse)
    (pages : Int → HttpResponse) (detailOf : Json → HttpResponse)
    (invPages cnPages : Int → HttpResponse) (invD cnD : Json → HttpResponse) (fuel : Nat) :
    (cfg.all Json.truthy = false →
      PurchaseBills.main cfg tokenResp pages detailOf fuel =
        some ⟨2, PurchaseBills.initBillsState⟩) ∧
    (∀ tok dom, PurchaseBills.get_new_access_token tokenResp = .ok (tok, dom) →
      (tok.truthy = false ∨ dom.truthy = false) → cfg.all Json.truthy = true →
      PurchaseBills.main cfg tokenResp pages detailOf fuel =
        some ⟨2, PurchaseBills.initBillsState⟩) ∧
    (∀ tok dom st e, cfg.all Json.truthy = true →
      PurchaseBills.get_new_access_token tokenResp = .ok (tok, dom) →
      tok.truthy = true → dom.truthy = true →
      PurchaseBills.fetch_all_bills pages detailOf fuel PurchaseBills.initBillsState =
        .err st e →
      PurchaseBills.main cfg tokenResp pages detailOf fuel = some ⟨1, st⟩) ∧
    (∀ tok dom st, cfg.all Json.truthy = true →
      PurchaseBills.get_new_access_token tokenResp = .ok (tok, dom) →
      tok.truthy = true → dom.truthy = true →
      PurchaseBills.fetch_all_bills pages detailOf fuel PurchaseBills.initBillsState =
        .done st →
      PurchaseBills.main cfg tokenResp pages detailOf fuel = some ⟨0, st⟩) ∧
    (∀ st e, (FinalScript.get_new_access_token tokenResp).truthy = true →
      FinalScript.fetch_all_invoices invPages invD fuel FinalScript.initFsState = .err st e →
      FinalScript.main tokenResp invPages cnPages invD cnD fuel = some ⟨0, st⟩) ∧
    (∀ st st2, (FinalScript.get_new_access_token tokenResp).truthy = true →
      FinalScript.fetch_all_invoices invPages invD fuel FinalScript.initFsState = .done st →
      FinalScript.fetch_all_credit_notes cnPages cnD fuel st = .done st2 →
      FinalScript.main tokenResp invPages cnPages invD cnD fuel = some ⟨0, st2⟩) := by
  refine ⟨?_, ?_, ?_, ?_, ?_, ?_⟩
  · intro h
    simp [PurchaseBills.main, h]
  · intro tok dom htok hfalsy hcfg
    rcases hfalsy with h | h <;>
      simp [PurchaseBills.main, hcfg, htok, h]
  · intro tok dom st e hcfg htok ht hd hrun
    simp [PurchaseBills.main, hcfg, htok, ht, hd, hrun]
  · intro tok dom st hcfg htok ht hd hrun
    simp [PurchaseBills.main, hcfg, htok, ht, hd, hrun]
  · intro st e ht hrun
    simp [FinalScript.main, ht, hrun]
  · intro st st2 ht hrun hrun2
    simp [FinalScript.main, ht, hrun, hrun2]

theorem C3_amended_witness :
    PurchaseBills.main [Json.null] ⟨200, .ok (.obj [("access_token", .str "t")])⟩
      (fun _ => ⟨200, .ok .null⟩) (fun _ => ⟨200, .ok .null⟩) 5 =
      some ⟨2, PurchaseBills.initBillsState⟩ ∧
    PurchaseBills.main [.str "x"] ⟨200, .ok (.obj [])⟩
      (fun _ => ⟨200, .ok .null⟩) (fun _ => ⟨200, .ok .null⟩) 5 =
      some ⟨2, PurchaseBills.initBillsState⟩ ∧
    PurchaseBills.main [.str "x"] ⟨200, .ok (.obj [("access_token", .str "t")])⟩
      (fun _ => ⟨500, .ok .null⟩) (fun _ => ⟨200, .ok .null⟩) 5 =
      some ⟨1, ⟨[], [], [Event.listPage 1], 0⟩⟩ ∧
    PurchaseBills.main [.str "x"] ⟨200, .ok (.obj [("access_token", .str "t")])⟩
      (fun _ => ⟨200, .ok (.obj [])⟩) (fun _ => ⟨200, .ok .null⟩) 5 =
      some ⟨0, ⟨[], [], [Event.listPage 1], 0⟩⟩ ∧
    FinalScript.main ⟨200, .ok (.obj [("access_token", .str "t")])⟩
      (fun _ => ⟨200, .error "JSONDecodeError"⟩) (fun _ => ⟨200, .ok .null⟩)
      (fun _ => ⟨200, .ok .null⟩) (fun _ => ⟨200, .ok .null⟩) 5 =
      some ⟨0, ⟨[], [], [], [], [Event.listPage 1]⟩⟩ ∧
    FinalScript.main ⟨200, .ok (.obj [("access_token", .str "t")])⟩
      (fun _ => ⟨200, .ok (.obj [])⟩) (fun _ => ⟨200, .ok (.obj [])⟩)
      (fun _ => ⟨200, .ok .null⟩) (fun _ => ⟨200, .ok .null⟩) 5 =
      some ⟨0, ⟨[], [], [], [], [Event.listPage 1, Event.listPage 1]⟩⟩ :=
  ⟨(C3_amended_exit_codes [Json.null] ⟨200, .ok (.obj [("access_token", .str "t")])⟩
      (fun _ => ⟨200, .ok .null⟩) (fun _ => ⟨200, .ok .null⟩)
      (fun _ => ⟨200, .ok .null⟩) (fun _ => ⟨200, .ok .null⟩)
      (fun _ => ⟨200, .ok .null⟩) (fun _ => ⟨200, .ok .null⟩) 5).1 rfl,
   (C3_amended_exit_codes [.str "x"] ⟨200, .ok (.obj [])⟩
      (fun _ => ⟨200, .ok .null⟩) (fun _ => ⟨200, .ok .null⟩)
      (fun _ => ⟨200, .ok .null⟩) (fun _ => ⟨200, .ok .null⟩)
      (fun _ => ⟨200, .ok .null⟩) (fun _ => ⟨200, .ok .null⟩) 5).2.1
     .null .null rfl (Or.inl rfl) rfl,
   (C3_amended_exit_codes [.str "x"] ⟨200, .ok (.obj [("access_token", .str "t")])⟩
      (fun _ => ⟨500, .ok .null⟩) (fun _ => ⟨200, .ok .null⟩)
      (fun _ => ⟨200, .ok .null⟩) (fun _ => ⟨200, .ok .null⟩)
      (fun _ => ⟨200, .ok .null⟩) (fun _ => ⟨200, .ok .null⟩) 5).2.2.1
     (.str "t") (.str "https://www.zohoapis.in") ⟨[], [], [Event.listPage 1], 0⟩
     "HTTPError" rfl rfl rfl rfl rfl,
   (C3_amended_exit_codes [.str "x"] ⟨200, .ok (.obj [("access_token", .str "t")])⟩
      (fun _ => ⟨200, .ok (.obj [])⟩) (fun _ => ⟨200, .ok .null⟩)
      (fun _ => ⟨200, .ok .null⟩) (fun _ => ⟨200, .ok .null⟩)
      (fun _ => ⟨200, .ok .null⟩) (fun _ => ⟨200, .ok .null⟩) 5).2.2.2.1
     (.str "t") (.str "https://www.zohoapis.in") ⟨[], [], [Event.listPage 1], 0⟩
     rfl rfl rfl rfl rfl,
   (C3_amended_exit_codes [.str "x"] ⟨200, .ok (.obj [("access_token", .str "t")])⟩
      (fun _ => ⟨200, .ok .null⟩) (fun _ => ⟨200, .ok .null⟩)
      (fun _ => ⟨200, .error "JSONDecodeError"⟩) (fun _ => ⟨200, .ok .null⟩)
      (fun _ => ⟨200, .ok .null⟩) (fun _ => ⟨200, .ok .null⟩) 5).2.2.2.2.1
     ⟨[], [], [], [], [Event.listPage 1]⟩ "JSONDecodeError" rfl rfl,
   (C3_amended_exit_codes [.str "x"] ⟨200, .ok (.obj [("access_token", .str "t")])⟩
      (fun _ => ⟨200, .ok .null⟩) (fun _ => ⟨200, .ok .null⟩)
      (fun _ => ⟨200, .ok (.obj [])⟩) (fun _ => ⟨200, .ok (.obj [])⟩)
      (fun _ => ⟨200, .ok .null⟩) (fun _ => ⟨200, .ok .null⟩) 5).2.2.2.2.2
     ⟨[], [], [], [], [Event.listPage 1]⟩ ⟨[], [], [], [], [Event.listPage 1, Event.listPage 1]⟩
     rfl rfl rfl⟩

/-- C6 counterexample: for a token response that is HTTP 200 with a JSON
body lacking `access_token`, the invoices/credit-notes orchestrator does
return an absent token and performs no sync — but the process then exits
with code 0 (plain `return`), not with a fatal exit code. -/
theorem C6_counterexample :
    FinalScript.main ⟨200, .ok (.obj [])⟩ (fun _ => ⟨200, .ok .null⟩)
      (fun _ => ⟨200, .ok .null⟩) (fun _ => ⟨200, .ok .null⟩)
      (fun _ => ⟨200, .ok .null⟩) 5 =
    some ⟨0, FinalScript.initFsState⟩ := by rfl

/-- C6 (amended): on an HTTP-200 token response whose JSON body lacks
`access_token`, both token providers return an absent token and neither
orchestrator attempts any document sync (no list/fetch/persist event): the
bills orchestrator exits with its fatal code 2, while the invoices/
credit-notes orchestrator returns early and the process exits 0. -/
theorem C6_amended_token_missing (r : HttpResponse) (fs : List (String × Json))
    (hst : r.status = 200) (hb : r.body = .ok (.obj fs))
    (hmiss : List.lookup "access_token" fs = none)
    (cfg : List Json) (hcfg : cfg.all Json.truthy = true)
    (pages : Int → HttpResponse) (d : Json → HttpResponse)
    (invPages cnPages : Int → HttpResponse) (invD cnD : Json → HttpResponse) (fuel : Nat) :
    FinalScript.get_new_access_token r = .null ∧
    PurchaseBills.get_new_access_token r = .ok (.null, .null) ∧
    PurchaseBills.main cfg r pages d fuel = some ⟨2, PurchaseBills.initBillsState⟩ ∧
    FinalScript.main r invPages cnPages invD cnD fuel = some ⟨0, FinalScript.initFsState⟩ := by
  have hfs : FinalScript.get_new_access_token r = .null := by
    simp [FinalScript.get_new_access_token, hb, Json.pyGet, hmiss]
  have hpb : PurchaseBills.get_new_access_token r = .ok (.null, .null) := by
    simp [PurchaseBills.get_new_access_token, hb, Json.pyGet, hmiss, Json.truthy]
  refine ⟨hfs, hpb, ?_, ?_⟩
  · simp [PurchaseBills.main, hcfg, hpb, Json.truthy]
  · simp [FinalScript.main, hfs, Json.truthy]

theorem C6_amended_witness :
    FinalScript.get_new_access_token ⟨200, .ok (.obj [("expires_in", .num 3600)])⟩ = .null ∧
    PurchaseBills.get_new_access_token ⟨200, .ok (.obj [("expires_in", .num 3600)])⟩ =
      .ok (.null, .null) ∧
    PurchaseBills.main [.str "x"] ⟨200, .ok (.obj [("expires_in", .num 3600)])⟩
      (fun _ => ⟨200, .ok .null⟩) (fun _ => ⟨200, .ok .null⟩) 5 =
      some ⟨2, PurchaseBills.initBillsState⟩ ∧
    FinalScript.main ⟨200, .ok (.obj [("expires_in", .num 3600)])⟩
      (fun _ => ⟨200, .ok .null⟩) (fun _ => ⟨200, .ok .null⟩)
      (fun _ => ⟨200, .ok .null⟩) (fun _ => ⟨200, .ok .null⟩) 5 =
      some ⟨0, FinalScript.initFsState⟩ :=
  C6_amended_token_missing ⟨200, .ok (.obj [("expires_in", .num 3600)])⟩
    [("expires_in", .num 3600)] rfl rfl rfl [.str "x"] rfl
    (fun _ => ⟨200, .ok .null⟩) (fun _ => ⟨200, .ok .null⟩)
    (fun _ => ⟨200, .ok .null⟩) (fun _ => ⟨200, .ok .null⟩)
    (fun _ => ⟨200, .ok .null⟩) (fun _ => ⟨200, .ok .null⟩) 5

/-- C4: the bills detail fetcher returns an absent result (after logging)
whenever the delivered HTTP status is non-2xx, the body fails to parse, or
the body's application-level `code` is non-zero; the invoices/credit-notes
detail fetchers validate neither status nor code (their result depends only
on the body and ignores any `code` field); and in both variants an absent
detail result skips exactly that one document — tables unchanged, only the
fetch event appended — and the loop continues with the remaining summaries.
The delivered-status hypotheses encode the HTTP client: `requests` follows
redirects and resolves 1xx internally, so a final status below 300 is 2xx
and a final status of 300 or above is 4xx/5xx. -/
theorem C4_detail_fetch_validation
    (r1 : HttpResponse) (hlo : r1.status < 300 → 200 ≤ r1.status)
    (hmid : 300 ≤ r1.status → 400 ≤ r1.status) (hhi : r1.status < 600)
    (hnot2 : ¬ (200 ≤ r1.status ∧ r1.status < 300))
    (r2 : HttpResponse) (e2 : String) (h2 : r2.body = .error e2)
    (r3 : HttpResponse) (fs3 : List (String × Json)) (h3 : httpJson r3 = .ok (.obj fs3))
    (c3 : Json) (h3c : List.lookup "code" fs3 = some c3) (h3nz : pyEqZero c3 = false)
    (s s2 : Nat) (b : Except String Json) (j4 : Json)
    (d6 : Json → HttpResponse) (st6 : FinalScript.FsState) (sm6 id6 : Json)
    (h6id : sm6.pyGet "invoice_id" .null = .ok id6)
    (fi6 : Json) (h6f : FinalScript.fetch_invoice_detail (d6 id6) = .ok fi6)
    (h6t : fi6.truthy = false) (rest6 : List Json)
    (d7 : Json → HttpResponse) (st7 : PurchaseBills.BillsState) (sm7 id7 : Json)
    (h7id : sm7.pyGet "bill_id" .null = .ok id7)
    (h7f : PurchaseBills.fetch_bill_detail (d7 id7) = .ok none) (rest7 : List Json) :
    PurchaseBills.fetch_bill_detail r1 = .ok none ∧
    PurchaseBills.fetch_bill_detail r2 = .ok none ∧
    PurchaseBills.fetch_bill_detail r3 = .ok none ∧
    FinalScript.fetch_invoice_detail ⟨s, b⟩ = FinalScript.fetch_invoice_detail ⟨s2, b⟩ ∧
    FinalScript.fetch_invoice_detail ⟨s, .ok j4⟩ = j4.pyGet "invoice" .null ∧
    FinalScript.fetch_credit_note_detail ⟨s, .ok j4⟩ = j4.pyGet "creditnote" .null ∧
    FinalScript.invoice_process_summary d6 st6 sm6 =
      .ok { st6 with trace := st6.trace ++ [.fetchDetail id6] } ∧
    foldSteps (FinalScript.invoice_process_summary d6) st6 (sm6 :: rest6) =
      foldSteps (FinalScript.invoice_process_summary d6)
        { st6 with trace := st6.trace ++ [.fetchDetail id6] } rest6 ∧
    PurchaseBills.bill_process_summary d7 st7 sm7 =
      .ok { st7 with trace := st7.trace ++ [.fetchDetail id7] } ∧
    foldSteps (PurchaseBills.bill_process_summary d7) st7 (sm7 :: rest7) =
      foldSteps (PurchaseBills.bill_process_summary d7)
        { st7 with trace := st7.trace ++ [.fetchDetail id7] } rest7 := by
  have h1 : 400 ≤ r1.status ∧ r1.status < 600 := by
    constructor
    · by_cases hc : r1.status < 300
      · exact absurd ⟨hlo hc, hc⟩ hnot2
      · exact hmid (Nat.le_of_not_lt hc)
    · exact hhi
  have hstep6 : FinalScript.invoice_process_summary d6 st6 sm6 =
      .ok { st6 with trace := st6.trace ++ [.fetchDetail id6] } := by
    simp [FinalScript.invoice_process_summary, h6id, h6f, h6t]
  have hstep7 : PurchaseBills.bill_process_summary d7 st7 sm7 =
      .ok { st7 with trace := st7.trace ++ [.fetchDetail id7] } := by
    simp [PurchaseBills.bill_process_summary, h7id, h7f]
  refine ⟨?_, ?_, ?_, rfl, rfl, rfl, hstep6, ?_, hstep7, ?_⟩
  · simp [PurchaseBills.fetch_bill_detail, httpJson, raise_for_status, h1.1, h1.2]
  · cases hrs : raise_for_status r2 with
    | error e => simp [PurchaseBills.fetch_bill_detail, httpJson, hrs]
    | ok u => simp [PurchaseBills.fetch_bill_detail, httpJson, hrs, h2]
  · simp [PurchaseBills.fetch_bill_detail, h3, Json.pyGet, h3c, h3nz]
  · simp [foldSteps, hstep6]
  · simp [foldSteps, hstep7]

theorem C4_witness :
    PurchaseBills.fetch_bill_detail ⟨404, .ok .null⟩ = .ok none ∧
    PurchaseBills.fetch_bill_detail ⟨200, .error "JSONDecodeError"⟩ = .ok none ∧
    PurchaseBills.fetch_bill_detail ⟨200, .ok (.obj [("code", .num 57)])⟩ = .ok none ∧
    FinalScript.fetch_invoice_detail ⟨500, .ok (.obj [("code", .num 57)])⟩ =
      FinalScript.fetch_invoice_detail ⟨200, .ok (.obj [("code", .num 57)])⟩ ∧
    FinalScript.fetch_invoice_detail ⟨500, .ok (.obj [("code", .num 57)])⟩ =
      Json.pyGet (.obj [("code", .num 57)]) "invoice" .null ∧
    FinalScript.fetch_credit_note_detail ⟨500, .ok (.obj [("code", .num 57)])⟩ =
      Json.pyGet (.obj [("code", .num 57)]) "creditnote" .null ∧
    FinalScript.invoice_process_summary (fun _ => ⟨200, .ok (.obj [])⟩)
        FinalScript.initFsState (.obj [("invoice_id", .str "I1")]) =
      .ok ⟨[], [], [], [], [Event.fetchDetail (.str "I1")]⟩ ∧
    foldSteps (FinalScript.invoice_process_summary (fun _ => ⟨200, .ok (.obj [])⟩))
        FinalScript.initFsState [.obj [("invoice_id", .str "I1")]] =
      foldSteps (FinalScript.invoice_process_summary (fun _ => ⟨200, .ok (.obj [])⟩))
        ⟨[], [], [], [], [Event.fetchDetail (.str "I1")]⟩ [] ∧
    PurchaseBills.bill_process_summary (fun _ => ⟨404, .ok .null⟩)
        PurchaseBills.initBillsState (.obj [("bill_id", .str "B1")]) =
      .ok ⟨[], [], [Event.fetchDetail (.str "B1")], 0⟩ ∧
    foldSteps (PurchaseBills.bill_process_summary (fun _ => ⟨404, .ok .null⟩))
        PurchaseBills.initBillsState [.obj [("bill_id", .str "B1")]] =
      foldSteps (PurchaseBills.bill_process_summary (fun _ => ⟨404, .ok .null⟩))
        ⟨[], [], [Event.fetchDetail (.str "B1")], 0⟩ [] :=
  C4_detail_fetch_validation
    ⟨404, .ok .null⟩ (by decide) (by decide) (by decide) (by decide)
    ⟨200, .error "JSONDecodeError"⟩ "JSONDecodeError" rfl
    ⟨200, .ok (.obj [("code", .num 57)])⟩ [("code", .num 57)] rfl (.num 57) rfl rfl
    500 200 (.ok (.obj [("code", .num 57)])) (.obj [("code", .num 57)])
    (fun _ => ⟨200, .ok (.obj [])⟩) FinalScript.initFsState
    (.obj [("invoice_id", .str "I1")]) (.str "I1") rfl .null rfl rfl []
    (fun _ => ⟨404, .ok .null⟩) PurchaseBills.initBillsState
    (.obj [("bill_id", .str "B1")]) (.str "B1") rfl rfl []

/-- C7: pagination policy.  The invoices/credit-notes listers stop when the
returned page's collection is empty and otherwise (after processing the
page) increment the page counter by one.  The bills lister stops when the
page is empty or when `page_context.has_more_page` is falsy, and otherwise
advances to the server-reported page number plus one when that value is a
truthy number, else to the local page counter plus one. -/
theorem C7_pagination_policy
    (r1 : HttpResponse) (d1 : Json → HttpResponse) (p1 : Int) (st1 : FinalScript.FsState)
    (fs1 : List (String × Json)) (hb1 : r1.body = .ok (.obj fs1))
    (he1 : List.lookup "invoices" fs1 = some (.arr []))
    (r2 : HttpResponse) (d2 : Json → HttpResponse) (p2 : Int) (st2 : FinalScript.FsState)
    (fs2 : List (String × Json)) (hb2 : r2.body = .ok (.obj fs2))
    (s2 : Json) (rest2 : List Json)
    (he2 : List.lookup "invoices" fs2 = some (.arr (s2 :: rest2)))
    (r3 : HttpResponse) (d3 : Json → HttpResponse) (p3 : Int) (st3 : FinalScript.FsState)
    (fs3 : List (String × Json)) (hb3 : r3.body = .ok (.obj fs3))
    (he3 : List.lookup "creditnotes" fs3 = some (.arr []))
    (r4 : HttpResponse) (d4 : Json → HttpResponse) (p4 : Int) (st4 : FinalScript.FsState)
    (fs4 : List (String × Json)) (hb4 : r4.body = .ok (.obj fs4))
    (s4 : Json) (rest4 : List Json)
    (he4 : List.lookup "creditnotes" fs4 = some (.arr (s4 :: rest4)))
    (r5 : HttpResponse) (d5 : Json → HttpResponse) (p5 : Int) (st5 : PurchaseBills.BillsState)
    (fs5 : List (String × Json)) (hj5 : httpJson r5 = .ok (.obj fs5))
    (hz5 : pyEqZero ((List.lookup "code" fs5).getD (.num 0)) = true)
    (he5 : List.lookup "bills" fs5 = some (.arr []))
    (r6 : HttpResponse) (d6 : Json → HttpResponse) (p6 : Int) (st6 : PurchaseBills.BillsState)
    (fs6 : List (String × Json)) (hj6 : httpJson r6 = .ok (.obj fs6))
    (hz6 : pyEqZero ((List.lookup "code" fs6).getD (.num 0)) = true)
    (s6 : Json) (rest6 : List Json)
    (he6 : List.lookup "bills" fs6 = some (.arr (s6 :: rest6))) :
    FinalScript.invoices_page r1 d1 p1 st1 =
      .stop { st1 with trace := st1.trace ++ [.listPage p1] } ∧
    (∀ stp, foldSteps (FinalScript.invoice_process_summary d2)
        { st2 with trace := st2.trace ++ [.listPage p2] } (s2 :: rest2) = .ok stp →
      FinalScript.invoices_page r2 d2 p2 st2 = .next stp (p2 + 1)) ∧
    FinalScript.creditnotes_page r3 d3 p3 st3 =
      .stop { st3 with trace := st3.trace ++ [.listPage p3] } ∧
    (∀ stp, foldSteps (FinalScript.cn_process_summary d4)
        { st4 with trace := st4.trace ++ [.listPage p4] } (s4 :: rest4) = .ok stp →
      FinalScript.creditnotes_page r4 d4 p4 st4 = .next stp (p4 + 1)) ∧
    PurchaseBills.bills_page r5 d5 p5 st5 =
      .stop { st5 with trace := st5.trace ++ [.listPage p5] } ∧
    (∀ stp, foldSteps (PurchaseBills.bill_process_summary d6)
        { st6 with trace := st6.trace ++ [.listPage p6] } (s6 :: rest6) = .ok stp →
      (PurchaseBills.next_page (.obj fs6) p6 = .ok none →
        PurchaseBills.bills_page r6 d6 p6 st6 = .stop stp) ∧
      (∀ k, PurchaseBills.next_page (.obj fs6) p6 = .ok (some k) →
        PurchaseBills.bills_page r6 d6 p6 st6 = .next stp k)) ∧
    (∀ (fs pcfs : List (String × Json)) (p : Int),
      List.lookup "page_context" fs = some (.obj pcfs) →
      (((List.lookup "has_more_page" pcfs).getD .null).truthy = false →
        PurchaseBills.next_page (.obj fs) p = .ok none) ∧
      (∀ n, ((List.lookup "has_more_page" pcfs).getD .null).truthy = true →
        List.lookup "page" pcfs = some (.num n) → n ≠ 0 →
        PurchaseBills.next_page (.obj fs) p = .ok (some (n + 1))) ∧
      (((List.lookup "has_more_page" pcfs).getD .null).truthy = true →
        ((List.lookup "page" pcfs).getD .null).truthy = false →
        PurchaseBills.next_page (.obj fs) p = .ok (some (p + 1)))) := by
  have pyOr_obj_get : ∀ (pcfs : List (String × Json)) (k : String) (d : Json),
      Json.pyGet (pyOr (.obj pcfs) (.obj [])) k d = .ok ((List.lookup k pcfs).getD d) := by
    intro pcfs k d
    cases pcfs with
    | nil => simp [pyOr, Json.truthy, Json.pyGet]
    | cons p rest => simp [pyOr, Json.truthy, Json.pyGet]
  refine ⟨?_, ?_, ?_, ?_, ?_, ?_, ?_⟩
  · simp [FinalScript.invoices_page, hb1, pyContains, he1, Json.index, Json.truthy]
  · intro stp hfold
    simp [FinalScript.invoices_page, hb2, pyContains, he2, Json.index, Json.truthy,
      Json.iter, hfold]
  · simp [FinalScript.creditnotes_page, hb3, pyContains, he3, Json.index, Json.truthy]
  · intro stp hfold
    simp [FinalScript.creditnotes_page, hb4, pyContains, he4, Json.index, Json.truthy,
      Json.iter, hfold]
  · simp [PurchaseBills.bills_page, hj5, Json.pyGet, hz5, he5, Json.truthy]
  · intro stp hfold
    constructor
    · intro hnp
      simp [PurchaseBills.bills_page, hj6, Json.pyGet, hz6, he6,
        Json.truthy, Json.iter, hfold, hnp]
    · intro k hnp
      simp [PurchaseBills.bills_page, hj6, Json.pyGet, hz6, he6,
        Json.truthy, Json.iter, hfold, hnp]
  · intro fs pcfs p hpc
    have hpcget : Json.pyGet (.obj fs) "page_context" .null = .ok (.obj pcfs) := by
      simp [Json.pyGet, hpc]
    refine ⟨?_, ?_, ?_⟩
    · intro htr
      simp [PurchaseBills.next_page, hpcget, pyOr_obj_get, htr]
    · intro n htr hsp hn
      simp only [PurchaseBills.next_page, hpcget, pyOr_obj_get, hsp]
      rw [htr]
      simp [pyOr, Json.truthy, hn, pyAddOne]
    · intro htr htr2
      simp only [PurchaseBills.next_page, hpcget, pyOr_obj_get]
      rw [htr]
      simp [htr2, pyOr, pyAddOne]

theorem C7_witness :
    FinalScript.invoices_page ⟨200, .ok (.obj [("invoices", .arr [])])⟩
        (fun _ => ⟨200, .ok .null⟩) 1 FinalScript.initFsState =
      .stop ⟨[], [], [], [], [Event.listPage 1]⟩ ∧
    FinalScript.invoices_page
        ⟨200, .ok (.obj [("invoices", .arr [.obj [("invoice_id", .str "I1")]])])⟩
        (fun _ => ⟨200, .ok (.obj [])⟩) 1 FinalScript.initFsState =
      .next ⟨[], [], [], [], [Event.listPage 1, Event.fetchDetail (.str "I1")]⟩ 2 ∧
    FinalScript.creditnotes_page ⟨200, .ok (.obj [("creditnotes", .arr [])])⟩
        (fun _ => ⟨200, .ok .null⟩) 1 FinalScript.initFsState =
      .stop ⟨[], [], [], [], [Event.listPage 1]⟩ ∧
    FinalScript.creditnotes_page
        ⟨200, .ok (.obj [("creditnotes", .arr [.obj [("creditnote_id", .str "C1")]])])⟩
        (fun _ => ⟨200, .ok (.obj [])⟩) 1 FinalScript.initFsState =
      .next ⟨[], [], [], [], [Event.listPage 1, Event.fetchDetail (.str "C1")]⟩ 2 ∧
    PurchaseBills.bills_page ⟨200, .ok (.obj [("bills", .arr [])])⟩
        (fun _ => ⟨200, .ok .null⟩) 1 PurchaseBills.initBillsState =
      .stop ⟨[], [], [Event.listPage 1], 0⟩ ∧
    PurchaseBills.bills_page
        ⟨200, .ok (.obj [("bills", .arr [.obj [("bill_id", .str "B1")]]),
          ("page_context", .obj [("has_more_page", .bool true), ("page", .num 3)])])⟩
        (fun _ => ⟨404, .ok .null⟩) 1 PurchaseBills.initBillsState =
      .next ⟨[], [], [Event.listPage 1, Event.fetchDetail (.str "B1")], 0⟩ 4 ∧
    PurchaseBills.next_page
        (.obj [("page_context", .obj [("has_more_page", .bool false)])]) 7 = .ok none ∧
    PurchaseBills.next_page
        (.obj [("page_context", .obj [("has_more_page", .bool true), ("page", .num 3)])]) 7 =
      .ok (some 4) ∧
    PurchaseBills.next_page
        (.obj [("page_context", .obj [("has_more_page", .bool true)])]) 7 = .ok (some 8) := by
  have th := C7_pagination_policy
    ⟨200, .ok (.obj [("invoices", .arr [])])⟩ (fun _ => ⟨200, .ok .null⟩) 1
      FinalScript.initFsState [("invoices", .arr [])] rfl rfl
    ⟨200, .ok (.obj [("invoices", .arr [.obj [("invoice_id", .str "I1")]])])⟩
      (fun _ => ⟨200, .ok (.obj [])⟩) 1 FinalScript.initFsState
      [("invoices", .arr [.obj [("invoice_id", .str "I1")]])] rfl
      (.obj [("invoice_id", .str "I1")]) [] rfl
    ⟨200, .ok (.obj [("creditnotes", .arr [])])⟩ (fun _ => ⟨200, .ok .null⟩) 1
      FinalScript.initFsState [("creditnotes", .arr [])] rfl rfl
    ⟨200, .ok (.obj [("creditnotes", .arr [.obj [("creditnote_id", .str "C1")]])])⟩
      (fun _ => ⟨200, .ok (.obj [])⟩) 1 FinalScript.initFsState
      [("creditnotes", .arr [.obj [("creditnote_id", .str "C1")]])] rfl
      (.obj [("creditnote_id", .str "C1")]) [] rfl
    ⟨200, .ok (.obj [("bills", .arr [])])⟩ (fun _ => ⟨200, .ok .null⟩) 1
      PurchaseBills.initBillsState [("bills", .arr [])] rfl rfl rfl
    ⟨200, .ok (.obj [("bills", .arr [.obj [("bill_id", .str "B1")]]),
        ("page_context", .obj [("has_more_page", .bool true), ("page", .num 3)])])⟩
      (fun _ => ⟨404, .ok .null⟩) 1 PurchaseBills.initBillsState
      [("bills", .arr [.obj [("bill_id", .str "B1")]]),
        ("page_context", .obj [("has_more_page", .bool true), ("page", .num 3)])] rfl rfl
      (.obj [("bill_id", .str "B1")]) [] rfl
  refine ⟨th.1, th.2.1 _ (by rfl), th.2.2.1, th.2.2.2.1 _ (by rfl), th.2.2.2.2.1,
    (th.2.2.2.2.2.1 ⟨[], [], [Event.listPage 1, Event.fetchDetail (.str "B1")], 0⟩
      (by rfl)).2 4 (by rfl),
    (th.2.2.2.2.2.2 [("page_context", .obj [("has_more_page", .bool false)])]
      [("has_more_page", .bool false)] 7 rfl).1 rfl,
    (th.2.2.2.2.2.2 [("page_context", .obj [("has_more_page", .bool true), ("page", .num 3)])]
      [("has_more_page", .bool true), ("page", .num 3)] 7 rfl).2.1 3 rfl rfl (by decide),
    (th.2.2.2.2.2.2 [("page_context", .obj [("has_more_page", .bool true)])]
      [("has_more_page", .bool true)] 7 rfl).2.2 rfl rfl⟩

/-- The events appended by one successful invoice-summary iteration: one
detail fetch, then (only when the detail is present/truthy) the two
persistence operations. -/
def invSeg (detailOf : Json → HttpResponse) (s : Json) : List Event :=
  match Json.pyGet s "invoice_id" .null with
  | .error _ => []
  | .ok invoice_id =>
    match FinalScript.fetch_invoice_detail (detailOf invoice_id) with
    | .error _ => [.fetchDetail invoice_id]
    | .ok fi =>
      if fi.truthy then
        [.fetchDetail invoice_id, .persistDoc invoice_id, .persistLineItems invoice_id]
      else [.fetchDetail invoice_id]

/-- The events appended by one successful bill-summary iteration (inserts
are attempted only after a present detail; a swallowed insert failure cuts
the segment short). -/
def billSeg (detailOf : Json → HttpResponse) (s : Json) : List Event :=
  match Json.pyGet s "bill_id" .null with
  | .error _ => []
  | .ok bill_id =>
    match PurchaseBills.fetch_bill_detail (detailOf bill_id) with
    | .error _ => [.fetchDetail bill_id]
    | .ok none => [.fetchDetail bill_id]
    | .ok (some fb) =>
      if fb.truthy then
        match PurchaseBills.billRowOf fb with
        | .error _ => [.fetchDetail bill_id, .persistDoc bill_id]
        | .ok row =>
          if row.bill_id = Json.null then [.fetchDetail bill_id, .persistDoc bill_id]
          else
            match Json.pyGet fb "line_items" .null with
            | .error _ => [.fetchDetail bill_id, .persistDoc bill_id]
            | .ok _ =>
              [.fetchDetail bill_id, .persistDoc bill_id, .persistLineItems bill_id]
      else [.fetchDetail bill_id]

/-- One successful invoice-summary step appends exactly its segment to the
trace, and the segment starts with the fetch event, carries only persistence
events after it, and is longer than the bare fetch only when the detail
fetch returned a present result. -/
theorem inv_step_trace_shape (d : Json → HttpResponse) (st st2 : FinalScript.FsState)
    (s : Json) (h : FinalScript.invoice_process_summary d st s = .ok st2) :
    st2.trace = st.trace ++ invSeg d s ∧
    ∃ idv rest, Json.pyGet s "invoice_id" .null = .ok idv ∧
      invSeg d s = .fetchDetail idv :: rest ∧
      (invSeg d s).countP isFetchEvent = 1 ∧
      (∀ e ∈ rest, isPersistEvent e = true) ∧
      (rest ≠ [] →
        ∃ fi, FinalScript.fetch_invoice_detail (d idv) = .ok fi ∧ fi.truthy = true) := by
  cases hid : Json.pyGet s "invoice_id" .null with
  | error e =>
    simp only [FinalScript.invoice_process_summary, hid] at h
    simp at h
  | ok idv =>
    cases hf : FinalScript.fetch_invoice_detail (d idv) with
    | error e =>
      simp only [FinalScript.invoice_process_summary, hid, hf] at h
      simp at h
    | ok fi =>
      by_cases ht : fi.truthy = true
      · simp only [FinalScript.invoice_process_summary, hid, hf] at h
        rw [if_pos ht] at h
        cases hins : FinalScript.insert_invoice st.invoices fi with
        | error e =>
          simp only [hins] at h
          simp at h
        | ok tbl =>
          simp only [hins] at h
          cases hli : Json.pyGet fi "line_items" .null with
          | error e =>
            simp only [hli] at h
            simp at h
          | ok items =>
            simp only [hli] at h
            cases hil : FinalScript.insert_line_items st.invLineItems idv items with
            | error e =>
              simp only [hil] at h
              simp at h
            | ok litbl =>
              simp only [hil] at h
              simp only [StepRes.ok.injEq] at h
              subst h
              refine ⟨?_, idv, [.persistDoc idv, .persistLineItems idv], rfl, ?_, ?_, ?_, ?_⟩
              · simp [invSeg, hid, hf, ht]
              · simp [invSeg, hid, hf, ht]
              · simp [invSeg, hid, hf, ht, List.countP_cons, isFetchEvent]
              · intro e he
                simp only [List.mem_cons, List.mem_singleton] at he
                rcases he with rfl | rfl | he
                · rfl
                · rfl
                · cases he
              · intro _
                exact ⟨fi, hf, ht⟩
      · simp only [FinalScript.invoice_process_summary, hid, hf] at h
        rw [if_neg ht] at h
        simp only [StepRes.ok.injEq] at h
        subst h
        refine ⟨?_, idv, [], rfl, ?_, ?_, ?_, ?_⟩
        · simp [invSeg, hid, hf, ht]
        · simp [invSeg, hid, hf, ht]
        · simp [invSeg, hid, hf, ht, List.countP_cons, isFetchEvent]
        · intro e he
          cases he
        · intro hne
          cases hne rfl

/-- Auxiliary: a list of persistence events holds no fetch event. -/
theorem persist_no_fetch (l2 : List Event) (hper : ∀ e ∈ l2, isPersistEvent e = true) :
    l2.countP isFetchEvent = 0 := by
  rw [List.countP_eq_zero]
  intro e he
  have := hper e he
  cases e <;> simp_all [isPersistEvent, isFetchEvent]

/-- One successful bill-summary step appends exactly its segment, with the
same shape guarantees as for invoices. -/
theorem bill_step_trace_shape (d : Json → HttpResponse) (st st2 : PurchaseBills.BillsState)
    (s : Json) (h : PurchaseBills.bill_process_summary d st s = .ok st2) :
    st2.trace = st.trace ++ billSeg d s ∧
    ∃ idv rest, Json.pyGet s "bill_id" .null = .ok idv ∧
      billSeg d s = .fetchDetail idv :: rest ∧
      (billSeg d s).countP isFetchEvent = 1 ∧
      (∀ e ∈ rest, isPersistEvent e = true) ∧
      (rest ≠ [] →
        ∃ fb, PurchaseBills.fetch_bill_detail (d idv) = .ok (some fb) ∧
          fb.truthy = true) := by
  cases hid : Json.pyGet s "bill_id" .null with
  | error e =>
    simp only [PurchaseBills.bill_process_summary, hid] at h
    simp at h
  | ok idv =>
    cases hf : PurchaseBills.fetch_bill_detail (d idv) with
    | error e =>
      simp only [PurchaseBills.bill_process_summary, hid, hf] at h
      simp at h
    | ok ofb =>
      cases ofb with
      | none =>
        simp only [PurchaseBills.bill_process_summary, hid, hf, StepRes.ok.injEq] at h
        subst h
        refine ⟨?_, idv, [], rfl, ?_, ?_, ?_, ?_⟩
        · simp [billSeg, hid, hf]
        · simp [billSeg, hid, hf]
        · simp [billSeg, hid, hf, List.countP_cons, isFetchEvent]
        · intro e he
          cases he
        · intro hne
          cases hne rfl
      | some fb =>
        by_cases ht : fb.truthy = true
        · simp only [PurchaseBills.bill_process_summary, hid, hf] at h
          rw [if_pos ht] at h
          cases hrow : PurchaseBills.billRowOf fb with
          | error e =>
            have hins : PurchaseBills.insert_bill st.bills fb = .error e := by
              simp [PurchaseBills.insert_bill, hrow]
            simp only [hins] at h
            simp only [StepRes.ok.injEq] at h
            subst h
            refine ⟨?_, idv, [.persistDoc idv], rfl, ?_, ?_, ?_, ?_⟩
            · simp [billSeg, hid, hf, ht, hrow]
            · simp [billSeg, hid, hf, ht, hrow]
            · simp [billSeg, hid, hf, ht, hrow, List.countP_cons, isFetchEvent]
            · intro e2 he2
              simp only [List.mem_singleton] at he2
              subst he2
              rfl
            · intro _
              exact ⟨fb, hf, ht⟩
          | ok row =>
            by_cases hn : row.bill_id = Json.null
            · have hins : PurchaseBills.insert_bill st.bills fb = .error "IntegrityError" := by
                simp [PurchaseBills.insert_bill, hrow, hn]
              simp only [hins] at h
              simp only [StepRes.ok.injEq] at h
              subst h
              refine ⟨?_, idv, [.persistDoc idv], rfl, ?_, ?_, ?_, ?_⟩
              · simp [billSeg, hid, hf, ht, hrow, hn]
              · simp [billSeg, hid, hf, ht, hrow, hn]
              · simp [billSeg, hid, hf, ht, hrow, hn, List.countP_cons, isFetchEvent]
              · intro e2 he2
                simp only [List.mem_singleton] at he2
                subst he2
                rfl
              · intro _
                exact ⟨fb, hf, ht⟩
            · have hins : PurchaseBills.insert_bill st.bills fb =
                  .ok (if st.bills.any (fun r => sqlEq r.bill_id row.bill_id) then
                    st.bills.map fun r => if sqlEq r.bill_id row.bill_id then row else r
                  else st.bills ++ [row]) := by
                simp only [PurchaseBills.insert_bill, hrow, if_neg hn]
                by_cases hany : (st.bills.any fun r => sqlEq r.bill_id row.bill_id) = true <;>
                  simp [hany]
              simp only [hins] at h
              cases hli : Json.pyGet fb "line_items" .null with
              | error e =>
                simp only [hli] at h
                simp only [StepRes.ok.injEq] at h
                subst h
                refine ⟨?_, idv, [.persistDoc idv], rfl, ?_, ?_, ?_, ?_⟩
                · simp [billSeg, hid, hf, ht, hrow, hn, hli]
                · simp [billSeg, hid, hf, ht, hrow, hn, hli]
                · simp [billSeg, hid, hf, ht, hrow, hn, hli, List.countP_cons, isFetchEvent]
                · intro e2 he2
                  simp only [List.mem_singleton] at he2
                  subst he2
                  rfl
                · intro _
                  exact ⟨fb, hf, ht⟩
              | ok items =>
                simp only [hli] at h
                cases hil : PurchaseBills.insert_line_items st.billLineItems idv
                    (pyOr items (.arr [])) with
                | error e =>
                  simp only [hil] at h
                  simp only [StepRes.ok.injEq] at h
                  subst h
                  refine ⟨?_, idv, [.persistDoc idv, .persistLineItems idv], rfl,
                    ?_, ?_, ?_, ?_⟩
                  · simp [billSeg, hid, hf, ht, hrow, hn, hli]
                  · simp [billSeg, hid, hf, ht, hrow, hn, hli]
                  · simp [billSeg, hid, hf, ht, hrow, hn, hli, List.countP_cons, isFetchEvent]
                  · intro e2 he2
                    simp only [List.mem_cons, List.mem_singleton] at he2
                    rcases he2 with rfl | rfl | he2
                    · rfl
                    · rfl
                    · cases he2
                  · intro _
                    exact ⟨fb, hf, ht⟩
                | ok litbl =>
                  simp only [hil] at h
                  simp only [StepRes.ok.injEq] at h
                  subst h
                  refine ⟨?_, idv, [.persistDoc idv, .persistLineItems idv], rfl,
                    ?_, ?_, ?_, ?_⟩
                  · simp [billSeg, hid, hf, ht, hrow, hn, hli]
                  · simp [billSeg, hid, hf, ht, hrow, hn, hli]
                  · simp [billSeg, hid, hf, ht, hrow, hn, hli, List.countP_cons, isFetchEvent]
                  · intro e2 he2
                    simp only [List.mem_cons, List.mem_singleton] at he2
                    rcases he2 with rfl | rfl | he2
                    · rfl
                    · rfl
                    · cases he2
                  · intro _
                    exact ⟨fb, hf, ht⟩
        · simp only [PurchaseBills.bill_process_summary, hid, hf] at h
          rw [if_neg ht] at h
          simp only [StepRes.ok.injEq] at h
          subst h
          refine ⟨?_, idv, [], rfl, ?_, ?_, ?_, ?_⟩
          · simp [billSeg, hid, hf, ht]
          · simp [billSeg, hid, hf, ht]
          · simp [billSeg, hid, hf, ht, List.countP_cons, isFetchEvent]
          · intro e he
            cases he
          · intro hne
            cases hne rfl

/-- A completed `foldSteps` run appends the concatenation of the per-summary
segments to the trace. -/
theorem foldSteps_trace {σ : Type} (f : σ → Json → StepRes σ) (tr : σ → List Event)
    (seg : Json → List Event)
    (hstep : ∀ st s st2, f st s = .ok st2 → tr st2 = tr st ++ seg s) :
    ∀ (l : List Json) (st st2 : σ), foldSteps f st l = .ok st2 →
      tr st2 = tr st ++ l.flatMap seg := by
  intro l
  induction l with
  | nil =>
    intro st st2 h
    simp only [foldSteps, StepRes.ok.injEq] at h
    subst h
    simp
  | cons s rest ih =>
    intro st st2 h
    simp only [foldSteps] at h
    cases hs : f st s with
    | ok stm =>
      rw [hs] at h
      rw [ih stm st2 h, hstep st s stm hs]
      simp
    | err stm e =>
      rw [hs] at h
      simp at h

/-- Every summary of a completed `foldSteps` run was processed successfully
from some intermediate state. -/
theorem foldSteps_all_ok {σ : Type} (f : σ → Json → StepRes σ) :
    ∀ (l : List Json) (st st2 : σ), foldSteps f st l = .ok st2 →
      ∀ s ∈ l, ∃ st0 st1, f st0 s = .ok st1 := by
  intro l
  induction l with
  | nil =>
    intro st st2 _ s hs
    cases hs
  | cons q rest ih =>
    intro st st2 h s hs
    simp only [foldSteps] at h
    cases hq : f st q with
    | ok stm =>
      rw [hq] at h
      rcases hs with _ | hs
      · exact ⟨st, stm, hq⟩
      · exact ih stm st2 h s (by assumption)
    | err stm e =>
      rw [hq] at h
      simp at h

/-- C9: in a completed processing run (invoices loop and bills loop alike),
every summary yielded by the lister gives rise to exactly one detail-fetch
event; its segment of the run trace begins with that fetch, everything after
it in the segment is a persistence operation, and persistence operations are
present only when that summary's detail fetch returned a present (truthy)
result — so no persistence happens before, or without, a successful fetch. -/
theorem C9_one_fetch_before_persist
    (d : Json → HttpResponse) (st st2 : FinalScript.FsState) (l : List Json)
    (h : foldSteps (FinalScript.invoice_process_summary d) st l = .ok st2)
    (db : Json → HttpResponse) (bst bst2 : PurchaseBills.BillsState) (bl : List Json)
    (hb : foldSteps (PurchaseBills.bill_process_summary db) bst bl = .ok bst2) :
    st2.trace = st.trace ++ l.flatMap (invSeg d) ∧
    (∀ s ∈ l, ∃ idv rest, Json.pyGet s "invoice_id" .null = .ok idv ∧
      invSeg d s = .fetchDetail idv :: rest ∧
      (invSeg d s).countP isFetchEvent = 1 ∧
      (∀ e ∈ rest, isPersistEvent e = true) ∧
      (rest ≠ [] →
        ∃ fi, FinalScript.fetch_invoice_detail (d idv) = .ok fi ∧ fi.truthy = true)) ∧
    bst2.trace = bst.trace ++ bl.flatMap (billSeg db) ∧
    (∀ s ∈ bl, ∃ idv rest, Json.pyGet s "bill_id" .null = .ok idv ∧
      billSeg db s = .fetchDetail idv :: rest ∧
      (billSeg db s).countP isFetchEvent = 1 ∧
      (∀ e ∈ rest, isPersistEvent e = true) ∧
      (rest ≠ [] →
        ∃ fb, PurchaseBills.fetch_bill_detail (db idv) = .ok (some fb) ∧
          fb.truthy = true)) := by
  refine ⟨?_, ?_, ?_, ?_⟩
  · exact foldSteps_trace _ FinalScript.FsState.trace (invSeg d)
      (fun s0 s s1 hstep => (inv_step_trace_shape d s0 s1 s hstep).1) l st st2 h
  · intro s hs
    obtain ⟨st0, st1, hok⟩ := foldSteps_all_ok _ l st st2 h s hs
    exact (inv_step_trace_shape d st0 st1 s hok).2
  · exact foldSteps_trace _ PurchaseBills.BillsState.trace (billSeg db)
      (fun s0 s s1 hstep => (bill_step_trace_shape db s0 s1 s hstep).1) bl bst bst2 hb
  · intro s hs
    obtain ⟨st0, st1, hok⟩ := foldSteps_all_ok _ bl bst bst2 hb s hs
    exact (bill_step_trace_shape db st0 st1 s hok).2

theorem C9_witness :
    ([Event.fetchDetail (.str "I1")] : List Event) =
      ([] : List Event) ++ [(.obj [("invoice_id", .str "I1")] : Json)].flatMap
        (invSeg fun _ => ⟨200, .ok (.obj [])⟩) ∧
    (invSeg (fun _ => ⟨200, .ok (.obj [])⟩) (.obj [("invoice_id", .str "I1")])).countP
      isFetchEvent = 1 ∧
    ([Event.fetchDetail (.str "B1")] : List Event) =
      ([] : List Event) ++ [(.obj [("bill_id", .str "B1")] : Json)].flatMap
        (billSeg fun _ => ⟨404, .ok .null⟩) ∧
    (billSeg (fun _ => ⟨404, .ok .null⟩) (.obj [("bill_id", .str "B1")])).countP
      isFetchEvent = 1 := by
  have th := C9_one_fetch_before_persist
    (fun _ => ⟨200, .ok (.obj [])⟩) FinalScript.initFsState
    ⟨[], [], [], [], [Event.fetchDetail (.str "I1")]⟩
    [.obj [("invoice_id", .str "I1")]] (by rfl)
    (fun _ => ⟨404, .ok .null⟩) PurchaseBills.initBillsState
    ⟨[], [], [Event.fetchDetail (.str "B1")], 0⟩
    [.obj [("bill_id", .str "B1")]] (by rfl)
  obtain ⟨h1, h2, h3, h4⟩ := th
  obtain ⟨idv, rest, _, _, hcount, _, _⟩ := h2 _ (List.mem_singleton.mpr rfl)
  obtain ⟨idv2, rest2, _, _, hcount2, _, _⟩ := h4 _ (List.mem_singleton.mpr rfl)
  exact ⟨h1, hcount, h3, hcount2⟩

end ZohoETL
